import Mathlib

/-!
# Temperature services (Gateway `service-a`, Lookup `service-b`)

Shallow embedding of `service-a/cmd/app/main.go` and `service-b/cmd/app/main.go`.

Conventions of the embedding:

* a Go `string` is a Lean `String`; the runes the `regexp` package iterates over are its `Char`s;
* a Go `error` value is a `GoError` carrying the text that `err.Error()` returns;
* what the standard library and the network do (JSON decoding, `client.Do`, `io.ReadAll`,
  `os.Getenv`) is a field of a `World` record, so every handler is a total, executable function
  of the request and of the world;
* `http.ResponseWriter` is a record of what the handler does with it, with the cases in which
  `net/http` panics or refuses a write;
* `Go.Json` follows the scanner of `encoding/json` and `Decoder.Decode` into a struct with the
  one field `cep`; the concrete worlds that decode JSON bodies use it;
* `float64` is Lean's `Float` (IEEE 754 binary64).
-/

namespace TemperatureServices

/-! ## Go library models shared by both services -/

namespace Go

/-- Value of Go's `error` interface: `text` is what `err.Error()` returns. -/
structure GoError where
  text : String
  deriving DecidableEq, Repr

/-- Method `Error()` of a Go error. -/
def GoError.Error (e : GoError) : String := e.text

/-- Bytes (`[]byte`, the content of an `io.Reader`). -/
abbrev Bytes := List UInt8

/-- Fragment of RE2 syntax used by the program: `^`, `$` (both without the `m` flag),
`\d`, concatenation and the counted repetition `r{n}`. -/
inductive Regex where
  | beginText
  | endText
  | digit
  | seq (a b : Regex)
  | rep (n : Nat) (r : Regex)
  deriving Repr

/-- Perl class `\d` of RE2: the ASCII digits `0` to `9` only. -/
def isPerlDigit (c : Char) : Bool := 48 ≤ c.toNat && c.toNat ≤ 57

/-- Position of a matcher in the text: number of runes consumed so far and the runes left. -/
abbrev Pos := Nat × List Char

/-- Counted repetition: every position at which `n` successive matches, each found by `f`, can
end when the first starts at position `p`. -/
def repeatStep (f : Pos → List Pos) : Nat → Pos → List Pos
  | 0, p => [p]
  | n + 1, p => (f p).flatMap (repeatStep f n)

/-- Every position at which a match of `r` that starts at position `p` can end. -/
def Regex.step : Regex → Pos → List Pos
  | .beginText, p => if p.1 = 0 then [p] else []
  | .endText, p => if p.2 = [] then [p] else []
  | .digit, p =>
    match p.2 with
    | c :: rest => if isPerlDigit c then [(p.1 + 1, rest)] else []
    | [] => []
  | .seq a b, p => (a.step p).flatMap b.step
  | .rep n r, p => repeatStep r.step n p

/-- Function `regexp.MatchString` for an already compiled pattern: the pattern matches when a
match starts at some position of the text (the search is not anchored). -/
def MatchString (re : Regex) (s : String) : Bool :=
  (List.range (s.data.length + 1)).any fun i => !(re.step (i, s.data.drop i)).isEmpty

/-- The pattern `^\d{8}$`. -/
def cepPattern : Regex :=
  .seq .beginText (.seq (.rep 8 .digit) .endText)

/-- Type `http.Header`. Keys are kept as they are written; both services spell every key they
use in one way only, so canonicalisation of keys plays no role. -/
structure Header where
  entries : List (String × String)
  deriving DecidableEq, Repr

/-- The empty header map. -/
def Header.empty : Header := ⟨[]⟩

/-- Method `Header.Del`. -/
def Header.Del (h : Header) (key : String) : Header :=
  ⟨h.entries.filter fun kv => kv.1 != key⟩

/-- Method `Header.Set`: the key gets this single value. -/
def Header.Set (h : Header) (key value : String) : Header :=
  ⟨(key, value) :: (h.Del key).entries⟩

/-- Method `Header.Get`: the value of the key, or the empty string. -/
def Header.Get (h : Header) (key : String) : String :=
  match h.entries.find? fun kv => kv.1 == key with
  | some kv => kv.2
  | none => ""

/-- Value of a field of a JSON object written by the services. -/
inductive JsonField where
  | str (s : String)
  | num (x : Float)

/-- Whether `encoding/json` encodes the value: a `float64` that is infinite or not a number is
an `UnsupportedValueError`, a string always encodes. -/
def JsonField.encodes : JsonField → Bool
  | .str _ => true
  | .num x => x.isFinite

/-- A flat JSON object: the fields in the order of the struct, named by their `json` tags. -/
abbrev JsonObject := List (String × JsonField)

/-- One write to the body of a response.
`raw b` is `w.Write(b)`, `line s` is `fmt.Fprintln(w, s)` (the text and a newline), and
`json o` is what `json.NewEncoder(w).Encode(v)` writes for the value `v` whose object is `o`. -/
inductive Chunk where
  | raw (b : Bytes)
  | line (s : String)
  | json (o : JsonObject)

/-- Whether a write carries no byte. -/
def Chunk.isEmpty : Chunk → Bool
  | .raw b => b.isEmpty
  | .line _ => false
  | .json _ => false

/-- The body writes that carry the bytes `b` and nothing else. -/
def rawBody (b : Bytes) : List Chunk :=
  if b = [] then [] else [.raw b]

/-- Type `http.ResponseWriter` of the server of `net/http`, as a record of what the handler
did with it: the header map, the status (`none` until it is written), the body writes in
order, the informational (1xx) responses sent before the status, and whether a call panicked.
After a panic the handler is unwound: no later call has an effect and the server closes the
connection without a response. -/
structure ResponseWriter where
  header : Header
  status : Option Nat
  body : List Chunk
  informational : List Nat := []
  panicked : Bool := false

/-- A fresh response writer. -/
def ResponseWriter.new : ResponseWriter := { header := Header.empty, status := none, body := [] }

/-- Call `w.Header().Set(key, value)`: has no effect on the response once the status is written. -/
def ResponseWriter.SetHeader (w : ResponseWriter) (key value : String) : ResponseWriter :=
  if w.panicked then w
  else
    match w.status with
    | none => { w with header := w.header.Set key value }
    | some _ => w

/-- Call `w.Header().Del(key)`. -/
def ResponseWriter.DelHeader (w : ResponseWriter) (key : String) : ResponseWriter :=
  if w.panicked then w
  else
    match w.status with
    | none => { w with header := w.header.Del key }
    | some _ => w

/-- Method `WriteHeader`. A call after the status is written is ignored. A code below 100 or
above 999 panics (`checkWriteHeaderCode`). A code from 100 to 199 other than 101 sends an
informational response and leaves the status open. Any other code fixes the status. -/
def ResponseWriter.WriteHeader (w : ResponseWriter) (statusCode : Nat) : ResponseWriter :=
  if w.panicked then w
  else
    match w.status with
    | some _ => w
    | none =>
      if statusCode < 100 ∨ 999 < statusCode then { w with panicked := true }
      else if statusCode ≤ 199 ∧ statusCode ≠ 101 then
        { w with informational := w.informational ++ [statusCode] }
      else { w with status := some statusCode }

/-- Function `bodyAllowedForStatus`: no body goes with a status from 100 to 199, 204 or 304. -/
def bodyAllowedForStatus (status : Nat) : Bool :=
  !(decide (100 ≤ status) && decide (status ≤ 199)) && status != 204 && status != 304

/-- The status line the client receives when the handler returns: 200 when the handler never
wrote one. -/
def ResponseWriter.statusCode (w : ResponseWriter) : Nat := w.status.getD 200

/-- A write to the body. It writes status 200 first when no status was written; a write
without bytes does nothing more; a write for a status that allows no body is refused
(`ErrBodyNotAllowed`, an error the handlers do not read). -/
def ResponseWriter.Write (w : ResponseWriter) (c : Chunk) : ResponseWriter :=
  if w.panicked then w
  else
    let w := w.WriteHeader 200
    if c.isEmpty then w
    else if bodyAllowedForStatus w.statusCode then { w with body := w.body ++ [c] }
    else w

/-- Call `json.NewEncoder(w).Encode(v)` for the value whose object is `o`: the value is
encoded first, and when that fails nothing is written. The handlers do not read the error. -/
def ResponseWriter.Encode (w : ResponseWriter) (o : JsonObject) : ResponseWriter :=
  if o.all fun field => field.2.encodes then w.Write (.json o) else w

/-- Function `http.Error` of `net/http`. -/
def httpError (w : ResponseWriter) (error : String) (code : Nat) : ResponseWriter :=
  let w := w.DelHeader "Content-Length"
  let w := w.SetHeader "Content-Type" "text/plain; charset=utf-8"
  let w := w.SetHeader "X-Content-Type-Options" "nosniff"
  let w := w.WriteHeader code
  w.Write (.line error)

/-- An inbound request `*http.Request`: what the handlers read of it. -/
structure Request where
  Method : String
  Header : Header
  Body : Bytes

/-- An outbound request handed to `client.Do`. -/
structure OutRequest where
  Method : String
  URL : String
  Header : Header
  Body : Bytes
  deriving DecidableEq, Repr

/-- What one outbound call does: `client.Do` fails, or it returns a response with a status code
and `io.ReadAll(resp.Body)` then fails or yields the body. -/
inductive HttpResult where
  | doError (err : GoError)
  | response (StatusCode : Nat) (readAll : Except GoError Bytes)

/-! ## Package `encoding/json`: the scanner and `Decoder.Decode` into a `CEPRequest` -/

namespace Json

/-- Entries of the scanner's `parseState` stack. -/
inductive ParseState where
  | objectKey
  | objectValue
  | arrayValue
  deriving DecidableEq, Repr

/-- The step functions of `scanner.go`, as the state a scanner is in. `literal rest` stands for
the states of the literals `true`, `false` and `null` with the bytes `rest` still expected, and
`inStringEscU n` for the states of a `\u` escape with `n` hexadecimal digits still expected. -/
inductive Step where
  | beginValueOrEmpty
  | beginValue
  | beginStringOrEmpty
  | beginString
  | endValue
  | endTop
  | inString
  | inStringEsc
  | inStringEscU (n : Nat)
  | neg
  | s1
  | s0
  | dot
  | dot0
  | e
  | eSign
  | e0
  | literal (rest : List Nat)
  | error
  deriving DecidableEq, Repr

/-- Struct `scanner`: the step function, whether the top-level value has ended, and the stack
of open objects and arrays (innermost first). -/
structure Scanner where
  step : Step
  endTop : Bool
  parseState : List ParseState
  deriving DecidableEq, Repr

/-- The opcodes a step returns, as far as the callers tell them apart. -/
inductive Op where
  | continue
  | endObject
  | endArray
  | scanEnd
  | scanError
  deriving DecidableEq, Repr

/-- Method `scanner.reset`. -/
def Scanner.reset : Scanner := { step := .beginValue, endTop := false, parseState := [] }

/-- Function `isSpace`: space, tab, carriage return, line feed. -/
def isSpace (c : Nat) : Bool := c = 32 || c = 9 || c = 13 || c = 10

/-- Method `scanner.error`. -/
def Scanner.fail (s : Scanner) : Op × Scanner := (.scanError, { s with step := .error })

/-- Function `stateEndTop`: a byte that is not a space is recorded as an error, and the opcode
is `scanEnd` all the same. -/
def stateEndTop (s : Scanner) (c : Nat) : Op × Scanner :=
  if isSpace c then (.scanEnd, s) else (.scanEnd, { s with step := .error })

/-- Method `scanner.popParseState`. -/
def Scanner.pop (s : Scanner) (rest : List ParseState) : Scanner :=
  if rest = [] then { step := .endTop, endTop := true, parseState := [] }
  else { s with step := .endValue, parseState := rest }

/-- Function `stateEndValue`. -/
def stateEndValue (s : Scanner) (c : Nat) : Op × Scanner :=
  match s.parseState with
  | [] => stateEndTop { s with step := .endTop, endTop := true } c
  | ps :: rest =>
    if isSpace c then (.continue, { s with step := .endValue })
    else
      match ps with
      | .objectKey =>
        if c = 58 then (.continue, { s with step := .beginValue, parseState := .objectValue :: rest })
        else s.fail
      | .objectValue =>
        if c = 44 then (.continue, { s with step := .beginString, parseState := .objectKey :: rest })
        else if c = 125 then (.endObject, s.pop rest)
        else s.fail
      | .arrayValue =>
        if c = 44 then (.continue, { s with step := .beginValue })
        else if c = 93 then (.endArray, s.pop rest)
        else s.fail

/-- Method `scanner.pushParseState`, with its limit on the nesting depth. -/
def Scanner.push (s : Scanner) (ps : ParseState) (step : Step) : Op × Scanner :=
  if s.parseState.length + 1 ≤ 10000 then
    (.continue, { s with step := step, parseState := ps :: s.parseState })
  else s.fail

/-- Function `stateBeginValue`. -/
def stateBeginValue (s : Scanner) (c : Nat) : Op × Scanner :=
  if isSpace c then (.continue, s)
  else if c = 123 then s.push .objectKey .beginStringOrEmpty
  else if c = 91 then s.push .arrayValue .beginValueOrEmpty
  else if c = 34 then (.continue, { s with step := .inString })
  else if c = 45 then (.continue, { s with step := .neg })
  else if c = 48 then (.continue, { s with step := .s0 })
  else if c = 116 then (.continue, { s with step := .literal [114, 117, 101] })
  else if c = 102 then (.continue, { s with step := .literal [97, 108, 115, 101] })
  else if c = 110 then (.continue, { s with step := .literal [117, 108, 108] })
  else if 49 ≤ c ∧ c ≤ 57 then (.continue, { s with step := .s1 })
  else s.fail

/-- Function `stateBeginString`. -/
def stateBeginString (s : Scanner) (c : Nat) : Op × Scanner :=
  if isSpace c then (.continue, s)
  else if c = 34 then (.continue, { s with step := .inString })
  else s.fail

/-- Whether a byte is a hexadecimal digit, in either case. -/
def isHex (c : Nat) : Bool :=
  (48 ≤ c && c ≤ 57) || (97 ≤ c && c ≤ 102) || (65 ≤ c && c ≤ 70)

/-- Whether a byte is a decimal digit. -/
def isDigit (c : Nat) : Bool := 48 ≤ c && c ≤ 57

/-- Function `state0`, also the end of `state1`. -/
def state0 (s : Scanner) (c : Nat) : Op × Scanner :=
  if c = 46 then (.continue, { s with step := .dot })
  else if c = 101 ∨ c = 69 then (.continue, { s with step := .e })
  else stateEndValue s c

/-- Function `stateESign`, also the end of `stateE`. -/
def stateESign (s : Scanner) (c : Nat) : Op × Scanner :=
  if isDigit c then (.continue, { s with step := .e0 }) else s.fail

/-- One call of `s.step(s, c)`. -/
def Scanner.next (s : Scanner) (c : Nat) : Op × Scanner :=
  match s.step with
  | .beginValueOrEmpty =>
    if isSpace c then (.continue, s)
    else if c = 93 then stateEndValue s c
    else stateBeginValue s c
  | .beginValue => stateBeginValue s c
  | .beginStringOrEmpty =>
    if isSpace c then (.continue, s)
    else if c = 125 then stateEndValue { s with parseState := .objectValue :: s.parseState.tail } c
    else stateBeginString s c
  | .beginString => stateBeginString s c
  | .endValue => stateEndValue s c
  | .endTop => stateEndTop s c
  | .inString =>
    if c = 34 then (.continue, { s with step := .endValue })
    else if c = 92 then (.continue, { s with step := .inStringEsc })
    else if c < 32 then s.fail
    else (.continue, s)
  | .inStringEsc =>
    if c = 98 ∨ c = 102 ∨ c = 110 ∨ c = 114 ∨ c = 116 ∨ c = 92 ∨ c = 47 ∨ c = 34 then
      (.continue, { s with step := .inString })
    else if c = 117 then (.continue, { s with step := .inStringEscU 4 })
    else s.fail
  | .inStringEscU n =>
    if isHex c then
      (.continue, { s with step := if n ≤ 1 then .inString else .inStringEscU (n - 1) })
    else s.fail
  | .neg =>
    if c = 48 then (.continue, { s with step := .s0 })
    else if 49 ≤ c ∧ c ≤ 57 then (.continue, { s with step := .s1 })
    else s.fail
  | .s1 => if isDigit c then (.continue, s) else state0 s c
  | .s0 => state0 s c
  | .dot => if isDigit c then (.continue, { s with step := .dot0 }) else s.fail
  | .dot0 =>
    if isDigit c then (.continue, s)
    else if c = 101 ∨ c = 69 then (.continue, { s with step := .e })
    else stateEndValue s c
  | .e =>
    if c = 43 ∨ c = 45 then (.continue, { s with step := .eSign }) else stateESign s c
  | .eSign => stateESign s c
  | .e0 => if isDigit c then (.continue, s) else stateEndValue s c
  | .literal rest =>
    match rest with
    | [] => s.fail
    | x :: xs =>
      if c = x then (.continue, { s with step := if xs = [] then .endValue else .literal xs })
      else s.fail
  | .error => (.scanError, s)

/-- Function `checkValid` with `scanner.eof`, after `reset`: the scanner is run over the bytes
left; the text is valid when no step fails and the top-level value has ended at the end. -/
def checkValid : Scanner → List Nat → Bool
  | s, [] =>
    if s.step = .error then false
    else if s.endTop then true
    else ((s.next 32).2.endTop && (s.next 32).2.step ≠ .error)
  | s, c :: cs =>
    match s.next c with
    | (.scanError, _) => false
    | (_, s2) => checkValid s2 cs

/-- Function `json.Valid`: whether the bytes are one well-formed JSON text. -/
def Valid (data : List Nat) : Bool := checkValid Scanner.reset data

/-- The loop of `Decoder.readValue` over the bytes of the body: the number of bytes up to the
end of the first JSON value, `n` bytes being already scanned. An object or an array ends at
its closing bracket; what follows is not looked at. At the end of the input the value is
complete when a space ends it; otherwise the error is `io.ErrUnexpectedEOF`, or `io.EOF` for
a body without any byte that is not a space. -/
def readValue (nonSpace : Bool) : Scanner → List Nat → Nat → Except GoError Nat
  | s, [], n =>
    if (s.next 32).1 = .scanEnd then .ok n
    else if nonSpace then .error ⟨"unexpected EOF"⟩
    else .error ⟨"EOF"⟩
  | s, c :: cs, n =>
    match s.next c with
    | (.scanEnd, _) => .ok n
    | (.endObject, s2) =>
      if (stateEndValue s2 32).1 = .scanEnd then .ok (n + 1) else readValue nonSpace s2 cs (n + 1)
    | (.endArray, s2) =>
      if (stateEndValue s2 32).1 = .scanEnd then .ok (n + 1) else readValue nonSpace s2 cs (n + 1)
    | (.scanError, _) => .error ⟨"invalid character"⟩
    | (.continue, s2) => readValue nonSpace s2 cs (n + 1)

/-- The first JSON value of a text, with the spaces before it, and what follows it. -/
def firstValue (data : List Nat) : Except GoError (List Nat × List Nat) :=
  match readValue (data.any fun c => !isSpace c) Scanner.reset data 0 with
  | .ok n => .ok (data.take n, data.drop n)
  | .error err => .error err

/-- Drops the spaces at the front. -/
def skipSpace : List Nat → List Nat
  | [] => []
  | c :: cs => if isSpace c then skipSpace cs else c :: cs

/-- Value of a hexadecimal digit. -/
def hexValue (c : Nat) : Nat :=
  if 48 ≤ c ∧ c ≤ 57 then c - 48
  else if 97 ≤ c ∧ c ≤ 102 then c - 87
  else if 65 ≤ c ∧ c ≤ 70 then c - 55
  else 0

/-- Function `getu4`: the code unit of an escape `\uXXXX` at the front of the bytes. -/
def getu4 : List Nat → Option Nat
  | 92 :: 117 :: a :: b :: c :: d :: _ =>
    if isHex a && isHex b && isHex c && isHex d then
      some (((hexValue a * 16 + hexValue b) * 16 + hexValue c) * 16 + hexValue d)
    else none
  | _ => none

/-- The replacement character `U+FFFD`. -/
def replacementChar : Char := Char.ofNat 0xFFFD

/-- Whether a byte is a continuation byte of UTF-8. -/
def isCont (b : Nat) : Bool := 128 ≤ b && b ≤ 191

/-- Function `utf8.DecodeRune` on bytes that do not start with an ASCII byte: the rune and the
number of bytes it takes; an invalid encoding gives the replacement character and one byte. -/
def decodeRune : List Nat → Char × Nat
  | b0 :: b1 :: b2 :: b3 :: _ =>
    if 194 ≤ b0 ∧ b0 ≤ 223 ∧ isCont b1 then (Char.ofNat ((b0 - 192) * 64 + (b1 - 128)), 2)
    else if 224 ≤ b0 ∧ b0 ≤ 239 ∧ isCont b1 ∧ isCont b2 ∧ (b0 ≠ 224 ∨ 160 ≤ b1) ∧
        (b0 ≠ 237 ∨ b1 ≤ 159) then
      (Char.ofNat (((b0 - 224) * 64 + (b1 - 128)) * 64 + (b2 - 128)), 3)
    else if 240 ≤ b0 ∧ b0 ≤ 244 ∧ isCont b1 ∧ isCont b2 ∧ isCont b3 ∧ (b0 ≠ 240 ∨ 144 ≤ b1) ∧
        (b0 ≠ 244 ∨ b1 ≤ 143) then
      (Char.ofNat ((((b0 - 240) * 64 + (b1 - 128)) * 64 + (b2 - 128)) * 64 + (b3 - 128)), 4)
    else (replacementChar, 1)
  | b0 :: b1 :: b2 :: _ =>
    if 194 ≤ b0 ∧ b0 ≤ 223 ∧ isCont b1 then (Char.ofNat ((b0 - 192) * 64 + (b1 - 128)), 2)
    else if 224 ≤ b0 ∧ b0 ≤ 239 ∧ isCont b1 ∧ isCont b2 ∧ (b0 ≠ 224 ∨ 160 ≤ b1) ∧
        (b0 ≠ 237 ∨ b1 ≤ 159) then
      (Char.ofNat (((b0 - 224) * 64 + (b1 - 128)) * 64 + (b2 - 128)), 3)
    else (replacementChar, 1)
  | b0 :: b1 :: _ =>
    if 194 ≤ b0 ∧ b0 ≤ 223 ∧ isCont b1 then (Char.ofNat ((b0 - 192) * 64 + (b1 - 128)), 2)
    else (replacementChar, 1)
  | _ => (replacementChar, 1)

/-- Function `unquote` on the bytes after the opening quote of a string literal that the
scanner accepted: the text up to the closing quote, with the escapes resolved and invalid
UTF-8 or unpaired surrogates replaced by `U+FFFD`. The first argument bounds the number of
steps. -/
def unquote : Nat → List Nat → List Char
  | 0, _ => []
  | _ + 1, [] => []
  | fuel + 1, c :: cs =>
    if c = 34 then []
    else if c = 92 then
      match cs with
      | [] => []
      | e :: rest =>
        if e = 117 then
          match getu4 (c :: cs) with
          | none => []
          | some rr =>
            if 0xD800 ≤ rr ∧ rr < 0xE000 then
              match getu4 (rest.drop 4) with
              | some rr1 =>
                if rr < 0xDC00 ∧ 0xDC00 ≤ rr1 ∧ rr1 < 0xE000 then
                  Char.ofNat ((rr - 0xD800) * 1024 + (rr1 - 0xDC00) + 0x10000) ::
                    unquote fuel (rest.drop 10)
                else replacementChar :: unquote fuel (rest.drop 4)
              | none => replacementChar :: unquote fuel (rest.drop 4)
            else Char.ofNat rr :: unquote fuel (rest.drop 4)
        else if e = 98 then Char.ofNat 8 :: unquote fuel rest
        else if e = 102 then Char.ofNat 12 :: unquote fuel rest
        else if e = 110 then Char.ofNat 10 :: unquote fuel rest
        else if e = 114 then Char.ofNat 13 :: unquote fuel rest
        else if e = 116 then Char.ofNat 9 :: unquote fuel rest
        else if e = 34 ∨ e = 92 ∨ e = 47 then Char.ofNat e :: unquote fuel rest
        else []
    else if c < 128 then Char.ofNat c :: unquote fuel cs
    else (decodeRune (c :: cs)).1 :: unquote fuel ((c :: cs).drop (decodeRune (c :: cs)).2)

/-- The text of a string literal, given from its opening quote. -/
def stringText (literal : List Nat) : String :=
  ⟨unquote literal.length literal.tail⟩

/-- What `Decode` finds as the value of a member, as far as a field of type `string` tells
values apart: a string, `null`, or a value of another kind. -/
inductive Member where
  | str (s : String)
  | null
  | other
  deriving DecidableEq, Repr

/-- The kind of a value that the scanner accepted, given without spaces in front. -/
def classify (value : List Nat) : Member :=
  match value with
  | 34 :: _ => .str (stringText value)
  | 110 :: _ => .null
  | _ => .other

/-- The members of an object that the scanner accepted, in order, given from behind its opening
brace: each key with its value. The first argument bounds the number of members. -/
def members : Nat → List Nat → List (String × Member)
  | 0, _ => []
  | fuel + 1, data =>
    match skipSpace data with
    | 34 :: rest =>
      match firstValue (34 :: rest) with
      | .error _ => []
      | .ok (key, afterKey) =>
        match skipSpace afterKey with
        | 58 :: afterColon =>
          match firstValue afterColon with
          | .error _ => []
          | .ok (value, afterValue) =>
            (stringText key, classify (skipSpace value)) ::
              (match skipSpace afterValue with
                | 44 :: more => members fuel more
                | _ => [])
        | _ => []
    | _ => []

/-- Lower case of an ASCII letter. -/
def lowerASCII (c : Char) : Char :=
  if 65 ≤ c.toNat ∧ c.toNat ≤ 90 then Char.ofNat (c.toNat + 32) else c

/-- Whether a key names the field tagged `cep`: by its exact name or, failing that, without
regard to case. -/
def namesCep (key : String) : Bool :=
  key.data.map lowerASCII = ['c', 'e', 'p']

/-- What storing the members of an object into a struct whose only field is `CEP string`,
tagged `cep`, gives: the text stored (a later member overwrites an earlier one, `null` stores
nothing) and whether some member for the field had a value that is not a string. -/
def storeMembers : List (String × Member) → String × Bool → String × Bool
  | [], acc => acc
  | (key, value) :: more, acc =>
    if namesCep key then
      match value with
      | .str s => storeMembers more (s, acc.2)
      | .null => storeMembers more acc
      | .other => storeMembers more (acc.1, true)
    else storeMembers more acc

/-- Call `json.NewDecoder(body).Decode(&req)` for a fresh `req` whose only field is
`CEP string` tagged `cep`: the text of the field, or the error. The first JSON value of the
body is read and nothing behind it; `null` stores nothing; an object stores its members; any
other value, and a member for the field that is not a string, is an error. The texts of the
errors are shortened. -/
def decodeCEP (body : Bytes) : Except GoError String :=
  match firstValue (body.map UInt8.toNat) with
  | .error err => .error err
  | .ok (value, _) =>
    match skipSpace value with
    | 123 :: inner =>
      match storeMembers (members inner.length inner) ("", false) with
      | (_, true) =>
        .error ⟨"json: cannot unmarshal into Go struct field CEPRequest.cep of type string"⟩
      | (cep, false) => .ok cep
    | 110 :: _ => .ok ""
    | _ => .error ⟨"json: cannot unmarshal into Go value of type main.CEPRequest"⟩

end Json

end Go

/-! ## Trace context (OpenTelemetry), modelled from the spec -/

namespace Otel

open Go

/-- Modelled from the spec: the span context (trace id, span id, sampling flag) of the
OpenTelemetry library, which is not part of the repository sources. The trace id is a 128-bit
and the span id a 64-bit number; zero is not a valid id. -/
structure SpanContext where
  traceID : Nat
  spanID : Nat
  sampled : Bool
  deriving DecidableEq, Repr

/-- Modelled from the spec: validity of a span context of the OpenTelemetry library (absent
from the sources): both ids are non-zero and fit their width. -/
def SpanContext.IsValid (sc : SpanContext) : Bool :=
  decide (0 < sc.traceID) && decide (sc.traceID < 2 ^ 128) &&
    decide (0 < sc.spanID) && decide (sc.spanID < 2 ^ 64)

/-- Modelled from the spec: the part of `context.Context` the tracing library reads (absent from
the sources), the span context of the current span, local or remote, if there is one. -/
abbrev Context := Option SpanContext

/-- Modelled from the spec: the id generator of the tracer provider (absent from the sources):
the trace id it draws for a new trace and the span id it draws for the `n`-th span. -/
structure IdGenerator where
  newTraceID : Nat
  newSpanID : Nat → Nat

/-- Modelled from the spec: `tracer.Start` of the OpenTelemetry library (absent from the
sources). A span whose parent context is valid continues the trace of its parent; otherwise a
new trace begins. -/
def tracerStart (g : IdGenerator) (n : Nat) (parent : Context) : SpanContext :=
  match parent with
  | some p =>
    if p.IsValid then { traceID := p.traceID, spanID := g.newSpanID n, sampled := p.sampled }
    else { traceID := g.newTraceID, spanID := g.newSpanID n, sampled := true }
  | none => { traceID := g.newTraceID, spanID := g.newSpanID n, sampled := true }

/-- Modelled from the spec: lower-case hexadecimal digit of a value below 16, for the standard
trace-context header (its encoder is absent from the sources). -/
def hexDigit (d : Nat) : Char :=
  if d < 10 then Char.ofNat (48 + d) else Char.ofNat (87 + d)

/-- Modelled from the spec: value of a lower-case hexadecimal digit, for the standard
trace-context header (its decoder is absent from the sources). -/
def hexValue (c : Char) : Option Nat :=
  if 48 ≤ c.toNat ∧ c.toNat ≤ 57 then some (c.toNat - 48)
  else if 97 ≤ c.toNat ∧ c.toNat ≤ 102 then some (c.toNat - 87)
  else none

/-- Modelled from the spec: fixed-width hexadecimal text of a number, most significant digit
first, as the standard trace-context header writes ids (encoder absent from the sources). -/
def toHex : Nat → Nat → List Char
  | 0, _ => []
  | w + 1, n => toHex w (n / 16) ++ [hexDigit (n % 16)]

/-- Modelled from the spec: number denoted by hexadecimal text, continuing from `acc`; `none`
when a character is not a lower-case hexadecimal digit (decoder absent from the sources). -/
def fromHexAux : Nat → List Char → Option Nat
  | acc, [] => some acc
  | acc, c :: cs =>
    match hexValue c with
    | some d => fromHexAux (acc * 16 + d) cs
    | none => none

/-- Modelled from the spec: number denoted by hexadecimal text (decoder absent from the
sources). -/
def fromHex (cs : List Char) : Option Nat := fromHexAux 0 cs

/-- Modelled from the spec: the value of the standard trace-context header for a span context,
`00-<trace id, 32 digits>-<span id, 16 digits>-<flags, 2 digits>` (the propagator is absent
from the sources). -/
def traceparent (sc : SpanContext) : String :=
  ⟨['0', '0', '-'] ++ toHex 32 sc.traceID ++ ['-'] ++
    toHex 16 sc.spanID ++ ['-'] ++ toHex 2 (if sc.sampled then 1 else 0)⟩

/-- Modelled from the spec: reading of the standard trace-context header (the propagator is
absent from the sources): version `00`, three separators, ids of 32 and 16 hexadecimal digits,
two digits of flags, nothing else; both ids non-zero. -/
def parseTraceparent (s : String) : Option SpanContext :=
  let version := s.data.take 2
  match s.data.drop 2 with
  | '-' :: r1 =>
    let tid := r1.take 32
    match r1.drop 32 with
    | '-' :: r2 =>
      let sid := r2.take 16
      match r2.drop 16 with
      | '-' :: fl =>
        if version = ['0', '0'] ∧ tid.length = 32 ∧
            sid.length = 16 ∧ fl.length = 2 then
          match fromHex tid, fromHex sid, fromHex fl with
          | some t, some p, some f =>
            if t ≠ 0 ∧ p ≠ 0 then some { traceID := t, spanID := p, sampled := f % 2 = 1 }
            else none
          | _, _, _ => none
        else none
      | _ => none
    | _ => none
  | _ => none

/-- Modelled from the spec: the key of the standard trace-context header, as the propagator
(absent from the sources) writes it into an `http.Header`. -/
def traceparentKey : String := "Traceparent"

/-- Modelled from the spec: `Inject` of the trace-context propagator (absent from the sources):
a valid span context of the current span is written to the outbound headers. -/
def inject (ctx : Context) (h : Header) : Header :=
  match ctx with
  | some sc => if sc.IsValid then h.Set traceparentKey (traceparent sc) else h
  | none => h

/-- Modelled from the spec: `Extract` of the trace-context propagator (absent from the sources):
a valid header gives the remote span context; without one the context is returned unchanged,
and no error is reported. -/
def extract (ctx : Context) (h : Header) : Context :=
  match parseTraceparent (h.Get traceparentKey) with
  | some sc => some sc
  | none => ctx

end Otel

/-- What a handler did besides answering: the outbound calls it made, in order, and the spans
it started, in order, each with its name. -/
structure Effects where
  calls : List Go.OutRequest
  spans : List (String × Otel.SpanContext)

/-- Records an outbound call. -/
def Effects.call (fx : Effects) (q : Go.OutRequest) : Effects :=
  { fx with calls := fx.calls ++ [q] }

/-- Records a started span. -/
def Effects.span (fx : Effects) (name : String) (sc : Otel.SpanContext) : Effects :=
  { fx with spans := fx.spans ++ [(name, sc)] }

/-- Result of handling one request: the response and the effects. -/
structure Outcome where
  w : Go.ResponseWriter
  fx : Effects

/-! ## Gateway: `service-a/cmd/app/main.go` -/

namespace ServiceA

open Go Otel

/-- Struct `CEPRequest`. -/
structure CEPRequest where
  CEP : String
  deriving DecidableEq, Repr

/-- Struct `ErrorResponse`. -/
structure ErrorResponse where
  Message : String
  deriving DecidableEq, Repr

/-- The JSON object of an `ErrorResponse`, by its struct tag. -/
def ErrorResponse.toJson (e : ErrorResponse) : JsonObject :=
  [("message", .str e.Message)]

/-- Everything outside the Gateway that its handler consults. -/
structure World where
  /-- Call `json.NewDecoder(r.Body).Decode(&req)` on the bytes of the body. -/
  decodeCEPRequest : Bytes → Except GoError CEPRequest
  /-- Function `os.Getenv`. -/
  getenv : String → String
  /-- Function `json.Marshal` on a `CEPRequest`. -/
  marshalCEPRequest : CEPRequest → Except GoError Bytes
  /-- The error of `http.NewRequestWithContext` for a method and a URL, if it fails. -/
  newRequest : String → String → Option GoError
  /-- Method `client.Do` followed by `io.ReadAll` of the response body. -/
  roundTrip : OutRequest → HttpResult
  /-- The id generator of the tracer provider. -/
  ids : IdGenerator

/-- Function `isValidCEP` of the Gateway: `regexp.MatchString` with `^\d{8}$`; the error result
of `MatchString` is dropped (the pattern is a valid constant). -/
def isValidCEP (cep : String) : Bool :=
  Go.MatchString Go.cepPattern cep

/-- Function `respondWithError` of the Gateway. -/
def respondWithError (w : ResponseWriter) (statusCode : Nat) (message : String) :
    ResponseWriter :=
  let w := w.SetHeader "Content-Type" "application/json"
  let w := w.WriteHeader statusCode
  w.Encode (ErrorResponse.toJson { Message := message })

/-- Function `forwardToServiceB`: the result `(body, status)` or the error, and the effects. -/
def forwardToServiceB (W : World) (ctx : Context) (fx : Effects) (url : String)
    (req : CEPRequest) : Except GoError (Bytes × Nat) × Effects :=
  match W.marshalCEPRequest req with
  | .error err => (.error err, fx)
  | .ok jsonData =>
    match W.newRequest "POST" url with
    | some err => (.error err, fx)
    | none =>
      let header := Header.empty.Set "Content-Type" "application/json"
      let header := inject ctx header
      let httpReq : OutRequest :=
        { Method := "POST", URL := url, Header := header, Body := jsonData }
      let fx := fx.call httpReq
      match W.roundTrip httpReq with
      | .doError err => (.error err, fx)
      | .response StatusCode readAll =>
        match readAll with
        | .error err => (.error err, fx)
        | .ok body => (.ok (body, StatusCode), fx)

/-- The URL of the Lookup service that `handleCEP` forwards to. -/
def serviceBURL (W : World) : String :=
  (if W.getenv "SERVICE_B_URL" = "" then "http://localhost:8081" else W.getenv "SERVICE_B_URL")
    ++ "/weather"

/-- Function `handleCEP`. The context of an inbound request carries no span. -/
def handleCEP (W : World) (r : Request) : Outcome :=
  let w := ResponseWriter.new
  let span := tracerStart W.ids 0 none
  let fx : Effects := { calls := [], spans := [("handle-cep-request", span)] }
  if r.Method ≠ "POST" then
    { w := httpError w "Method not allowed" 405, fx := fx }
  else
    match W.decodeCEPRequest r.Body with
    | .error _ => { w := respondWithError w 400 "invalid request body", fx := fx }
    | .ok req =>
      let validateSpan := tracerStart W.ids 1 (some span)
      let fx := fx.span "validate-cep" validateSpan
      if !isValidCEP req.CEP then
        { w := respondWithError w 422 "invalid zipcode", fx := fx }
      else
        let forwardSpan := tracerStart W.ids 2 (some validateSpan)
        let fx := fx.span "forward-to-service-b" forwardSpan
        match forwardToServiceB W (some forwardSpan) fx (serviceBURL W) req with
        | (.error _, fx) => { w := respondWithError w 500 "internal server error", fx := fx }
        | (.ok (response, statusCode), fx) =>
          let w := w.SetHeader "Content-Type" "application/json"
          let w := w.WriteHeader statusCode
          { w := w.Write (.raw response), fx := fx }

/-- The span that `handleCEP` starts under the name `handle-cep-request`. -/
def handlerSpan (W : World) : SpanContext :=
  tracerStart W.ids 0 none

/-- The span that `handleCEP` starts under the name `validate-cep`. -/
def validateSpan (W : World) : SpanContext :=
  tracerStart W.ids 1 (some (handlerSpan W))

/-- The span that `handleCEP` starts under the name `forward-to-service-b`. -/
def forwardSpan (W : World) : SpanContext :=
  tracerStart W.ids 2 (some (validateSpan W))

/-- The call of `forwardToServiceB` that `handleCEP` makes for a decoded, valid request. -/
def forwardAttempt (W : World) (req : CEPRequest) : Except GoError (Bytes × Nat) × Effects :=
  forwardToServiceB W (some (forwardSpan W))
    { calls := [],
      spans := [("handle-cep-request", handlerSpan W), ("validate-cep", validateSpan W),
        ("forward-to-service-b", forwardSpan W)] }
    (serviceBURL W) req

end ServiceA

/-! ## Lookup: `service-b/cmd/app/main.go` -/

namespace ServiceB

open Go Otel

/-- Struct `CEPRequest`. -/
structure CEPRequest where
  CEP : String
  deriving DecidableEq, Repr

/-- Struct `ViaCEPResponse`. -/
structure ViaCEPResponse where
  Cep : String
  Logradouro : String
  Complemento : String
  Bairro : String
  Localidade : String
  UF : String
  Erro : Bool
  deriving DecidableEq, Repr

/-- The anonymous struct of the field `Current` of `WeatherAPIResponse`. -/
structure Current where
  TempC : Float

/-- Struct `WeatherAPIResponse`. -/
structure WeatherAPIResponse where
  Current : Current

/-- Struct `WeatherResponse`. -/
structure WeatherResponse where
  City : String
  TempC : Float
  TempF : Float
  TempK : Float

/-- Struct `ErrorResponse`. -/
structure ErrorResponse where
  Message : String
  deriving DecidableEq, Repr

/-- The JSON object of an `ErrorResponse`, by its struct tag. -/
def ErrorResponse.toJson (e : ErrorResponse) : JsonObject :=
  [("message", .str e.Message)]

/-- The JSON object of a `WeatherResponse`, by its struct tags. -/
def WeatherResponse.toJson (v : WeatherResponse) : JsonObject :=
  [("city", .str v.City), ("temp_C", .num v.TempC), ("temp_F", .num v.TempF),
    ("temp_K", .num v.TempK)]

/-- Everything outside the Lookup service that its handler consults. -/
structure World where
  /-- Call `json.NewDecoder(r.Body).Decode(&req)` on the bytes of the body. -/
  decodeCEPRequest : Bytes → Except GoError CEPRequest
  /-- Function `os.Getenv`. -/
  getenv : String → String
  /-- The error of `http.NewRequestWithContext` for a method and a URL, if it fails. -/
  newRequest : String → String → Option GoError
  /-- Method `client.Do` followed by `io.ReadAll` of the response body. -/
  roundTrip : OutRequest → HttpResult
  /-- Function `json.Unmarshal` into a `ViaCEPResponse`. -/
  unmarshalViaCEP : Bytes → Except GoError ViaCEPResponse
  /-- Function `json.Unmarshal` into a `WeatherAPIResponse`. -/
  unmarshalWeather : Bytes → Except GoError WeatherAPIResponse
  /-- The id generator of the tracer provider. -/
  ids : IdGenerator

/-- Function `isValidCEP` of the Lookup service, the same pattern as in the Gateway. -/
def isValidCEP (cep : String) : Bool :=
  Go.MatchString Go.cepPattern cep

/-- Function `celsiusToFahrenheit`. -/
def celsiusToFahrenheit (c : Float) : Float :=
  c * 1.8 + 32

/-- Function `celsiusToKelvin`. -/
def celsiusToKelvin (c : Float) : Float :=
  c + 273

/-- Function `respondWithError` of the Lookup service. -/
def respondWithError (w : ResponseWriter) (statusCode : Nat) (message : String) :
    ResponseWriter :=
  let w := w.SetHeader "Content-Type" "application/json"
  let w := w.WriteHeader statusCode
  w.Encode (ErrorResponse.toJson { Message := message })

/-- The URL that `fetchLocationByCEP` formats. -/
def viaCEPURL (cep : String) : String :=
  "https://viacep.com.br/ws/" ++ cep ++ "/json/"

/-- A `GET` request without body, as built by `http.NewRequestWithContext(ctx, "GET", url, nil)`. -/
def getRequest (url : String) : OutRequest :=
  { Method := "GET", URL := url, Header := Header.empty, Body := [] }

/-- Function `fetchLocationByCEP`: the city or the error, and the effects. -/
def fetchLocationByCEP (W : World) (ctx : Context) (fx : Effects) (cep : String) :
    Except GoError String × Effects :=
  let fx := fx.span "fetch-location-viacep" (tracerStart W.ids fx.spans.length ctx)
  let url := viaCEPURL cep
  match W.newRequest "GET" url with
  | some err => (.error err, fx)
  | none =>
    let fx := fx.call (getRequest url)
    match W.roundTrip (getRequest url) with
    | .doError err => (.error err, fx)
    | .response StatusCode readAll =>
      if StatusCode ≠ 200 then
        (.error ⟨"ViaCEP returned status " ++ toString StatusCode⟩, fx)
      else
        match readAll with
        | .error err => (.error err, fx)
        | .ok body =>
          match W.unmarshalViaCEP body with
          | .error err => (.error err, fx)
          | .ok viaCEP =>
            if viaCEP.Erro then (.error ⟨"CEP not found"⟩, fx)
            else (.ok viaCEP.Localidade, fx)

/-- The URL that `fetchTemperature` formats: key and city are inserted as they are. -/
def weatherURL (apiKey city : String) : String :=
  "https://api.weatherapi.com/v1/current.json?key=" ++ apiKey ++ "&q=" ++ city ++ "&aqi=no"

/-- Function `fetchTemperature`: the temperature in Celsius or the error, and the effects. -/
def fetchTemperature (W : World) (ctx : Context) (fx : Effects) (city : String) :
    Except GoError Float × Effects :=
  let fx := fx.span "fetch-temperature-weatherapi" (tracerStart W.ids fx.spans.length ctx)
  let apiKey := W.getenv "WEATHER_API_KEY"
  if apiKey = "" then (.error ⟨"WEATHER_API_KEY not set"⟩, fx)
  else
    let url := weatherURL apiKey city
    match W.newRequest "GET" url with
    | some err => (.error err, fx)
    | none =>
      let fx := fx.call (getRequest url)
      match W.roundTrip (getRequest url) with
      | .doError err => (.error err, fx)
      | .response StatusCode readAll =>
        if StatusCode ≠ 200 then
          (.error ⟨"WeatherAPI returned status " ++ toString StatusCode⟩, fx)
        else
          match readAll with
          | .error err => (.error err, fx)
          | .ok body =>
            match W.unmarshalWeather body with
            | .error err => (.error err, fx)
            | .ok weather => (.ok weather.Current.TempC, fx)

/-- Function `handleWeather`. The context of an inbound request carries no span before the
trace context is extracted from the headers. -/
def handleWeather (W : World) (r : Request) : Outcome :=
  let w := ResponseWriter.new
  let ctx := extract none r.Header
  let span := tracerStart W.ids 0 ctx
  let fx : Effects := { calls := [], spans := [("handle-weather-request", span)] }
  if r.Method ≠ "POST" then
    { w := httpError w "Method not allowed" 405, fx := fx }
  else
    match W.decodeCEPRequest r.Body with
    | .error _ => { w := respondWithError w 400 "invalid request body", fx := fx }
    | .ok req =>
      if !isValidCEP req.CEP then
        { w := respondWithError w 422 "invalid zipcode", fx := fx }
      else
        match fetchLocationByCEP W (some span) fx req.CEP with
        | (.error err, fx) =>
          if err.Error = "CEP not found" then
            { w := respondWithError w 404 "can not find zipcode", fx := fx }
          else
            { w := respondWithError w 500 "internal server error", fx := fx }
        | (.ok location, fx) =>
          match fetchTemperature W (some span) fx location with
          | (.error _, fx) =>
            { w := respondWithError w 500 "internal server error", fx := fx }
          | (.ok tempC, fx) =>
            let tempF := celsiusToFahrenheit tempC
            let tempK := celsiusToKelvin tempC
            let response : WeatherResponse :=
              { City := location, TempC := tempC, TempF := tempF, TempK := tempK }
            let w := w.SetHeader "Content-Type" "application/json"
            let w := w.WriteHeader 200
            { w := w.Encode response.toJson, fx := fx }

end ServiceB

/-! ## The spec's vocabulary, for comparison with the code -/

namespace Spec

open Go

/-- The code format of the spec: exactly 8 characters, each an ASCII decimal digit. -/
def eightDigits (code : String) : Bool :=
  code.length == 8 && code.data.all fun c => decide (48 ≤ c.toNat) && decide (c.toNat ≤ 57)

/-- Well-formed JSON in the sense of the spec: the whole body is one JSON text, which is what
`json.Valid` decides. -/
def wellFormedJSON (body : Bytes) : Bool :=
  Json.Valid (body.map UInt8.toNat)

/-- Well-formed JSON for an object with a string `cep`: the whole body is one JSON text, the
text is an object, it has a member named `cep`, and every member of that name is a string. -/
def isCEPDocument (body : Bytes) : Bool :=
  wellFormedJSON body &&
    match Json.skipSpace (body.map UInt8.toNat) with
    | 123 :: inner =>
      ((Json.members inner.length inner).any fun m => m.1 = "cep") &&
        ((Json.members inner.length inner).all fun m =>
          m.1 != "cep" || (match m.2 with
            | .str _ => true
            | _ => false))
    | _ => false

/-- The `ErrorEnvelope` shape of the spec: the body is one JSON object whose only field is
`message`, a string. -/
def isErrorEnvelope (w : ResponseWriter) : Bool :=
  match w.body with
  | [.json [(key, .str _)]] => key == "message"
  | _ => false

/-- The three outcomes of the directory step in the spec (section 4.2, step 4). -/
inductive DirectoryOutcome where
  | found (city : String)
  | notFound
  | failed
  deriving DecidableEq, Repr

/-- Outcome of the directory step for a code, in the spec's words: a transport failure, a
status other than 200 or an undecodable body is a failure; a successful call whose record has
`erro = true` is not-found; a successful call otherwise resolves the city `localidade`. -/
def directoryOutcome (W : ServiceB.World) (code : String) : DirectoryOutcome :=
  match W.newRequest "GET" (ServiceB.viaCEPURL code) with
  | some _ => .failed
  | none =>
    match W.roundTrip (ServiceB.getRequest (ServiceB.viaCEPURL code)) with
    | .doError _ => .failed
    | .response _ (.error _) => .failed
    | .response status (.ok body) =>
      if status = 200 then
        match W.unmarshalViaCEP body with
        | .error _ => .failed
        | .ok record => if record.Erro then .notFound else .found record.Localidade
      else .failed

/-- Outcome of the weather step for a city, in the spec's words: the reading in Celsius, or
`none` for any failure (missing credential, transport failure, status other than 200,
undecodable body). -/
def weatherOutcome (W : ServiceB.World) (city : String) : Option Float :=
  if W.getenv "WEATHER_API_KEY" = "" then none
  else
    let url := ServiceB.weatherURL (W.getenv "WEATHER_API_KEY") city
    match W.newRequest "GET" url with
    | some _ => none
    | none =>
      match W.roundTrip (ServiceB.getRequest url) with
      | .doError _ => none
      | .response _ (.error _) => none
      | .response status (.ok body) =>
        if status = 200 then
          match W.unmarshalWeather body with
          | .error _ => none
          | .ok reading => some reading.Current.TempC
        else none

/-- The failing transitions of the Lookup pipeline (rows of the table in section 4.2). -/
inductive Transition where
  | decodeBody
  | formatValidation
  | directoryNotFound
  | directoryOther
  | weatherCall
  deriving DecidableEq, Repr

/-- The table of section 4.2: status and message of each failing transition. -/
def errorTable : Transition → Nat × String
  | .decodeBody => (400, "invalid request body")
  | .formatValidation => (422, "invalid zipcode")
  | .directoryNotFound => (404, "can not find zipcode")
  | .directoryOther => (500, "internal server error")
  | .weatherCall => (500, "internal server error")

/-- The first transition that fails for a `POST` request to the Lookup service, `none` when
every step succeeds. -/
def firstFailure (W : ServiceB.World) (r : Request) : Option Transition :=
  match W.decodeCEPRequest r.Body with
  | .error _ => some .decodeBody
  | .ok req =>
    if eightDigits req.CEP then
      match directoryOutcome W req.CEP with
      | .failed => some .directoryOther
      | .notFound => some .directoryNotFound
      | .found city =>
        match weatherOutcome W city with
        | none => some .weatherCall
        | some _ => none
    else some .formatValidation

/-- The text by which `handleWeather` recognises the not-found error of the directory step. -/
def notFoundText : String := "CEP not found"

/-- Errors that come out of the standard library during the directory step (building the
request, `client.Do`, `io.ReadAll`, `json.Unmarshal`) never read `CEP not found`, the text of
the error that `fetchLocationByCEP` itself creates. -/
def LibraryErrorTexts (W : ServiceB.World) : Prop :=
  (∀ url e, W.newRequest "GET" url = some e → e.Error ≠ notFoundText) ∧
  (∀ q e, W.roundTrip q = .doError e → e.Error ≠ notFoundText) ∧
  (∀ q status e, W.roundTrip q = .response status (.error e) → e.Error ≠ notFoundText) ∧
  (∀ body e, W.unmarshalViaCEP body = .error e → e.Error ≠ notFoundText)

end Spec

/-! ## Concrete worlds and requests -/

namespace Demo

open Go Otel

/-- An id generator whose ids are valid. -/
def ids : IdGenerator :=
  { newTraceID := 0x4bf92f3577b34da6a3ce929d0e0e4736
    newSpanID := fun n => 0x00f067aa0ba902b7 + n }

/-- The bytes of a text made of ASCII characters. -/
def bytesOf (text : String) : Bytes :=
  text.data.map fun c => UInt8.ofNat c.toNat

/-- The text of a sequence of ASCII bytes. -/
def textOf (body : Bytes) : String :=
  ⟨body.map fun b => Char.ofNat b.toNat⟩

/-- A `POST` request without headers. -/
def post (body : Bytes) : Request :=
  { Method := "POST", Header := Header.empty, Body := body }

/-- A `GET` request. -/
def get : Request :=
  { Method := "GET", Header := Header.empty, Body := [] }

/-- A Gateway world. The body of a request stands for the code it carries: the empty body does
not decode, any other body decodes to the request whose code is the text of the bytes. The
Lookup service answers every forwarded request with `downstream`. -/
def gateway (downstream : HttpResult) : ServiceA.World :=
  { decodeCEPRequest := fun body =>
      if body = [] then .error ⟨"EOF"⟩ else .ok { CEP := textOf body }
    getenv := fun _ => ""
    marshalCEPRequest := fun req => .ok (bytesOf req.CEP)
    newRequest := fun _ _ => none
    roundTrip := fun _ => downstream
    ids := ids }

/-- A Lookup world, with the same reading of request bodies. The directory answers with
`directory`, every directory body decodes to `record`, the weather credential is `apiKey` and
the weather provider reports 25 degrees Celsius for every city. -/
def lookup (directory : HttpResult) (record : ServiceB.ViaCEPResponse) (apiKey : String) :
    ServiceB.World :=
  { decodeCEPRequest := fun body =>
      if body = [] then .error ⟨"EOF"⟩ else .ok { CEP := textOf body }
    getenv := fun name => if name = "WEATHER_API_KEY" then apiKey else ""
    newRequest := fun _ _ => none
    roundTrip := fun q =>
      if q.URL = ServiceB.viaCEPURL "01001000" then directory else .response 200 (.ok [])
    unmarshalViaCEP := fun _ => .ok record
    unmarshalWeather := fun _ => .ok { Current := { TempC := 25 } }
    ids := ids }

/-- A directory record with the given city and not-found flag. -/
def record (city : String) (erro : Bool) : ServiceB.ViaCEPResponse :=
  { Cep := "01001-000", Logradouro := "", Complemento := "", Bairro := "", Localidade := city,
    UF := "SP", Erro := erro }

/-- A Gateway world whose request bodies are decoded as `encoding/json` decodes them, and whose
forwarded body is the object `{"cep":"<code>"}` (what `json.Marshal` gives for a code made of
digits, the only codes that reach it). The Lookup service answers every forwarded request with
`downstream`. -/
def jsonGateway (downstream : HttpResult) : ServiceA.World :=
  { decodeCEPRequest := fun body => (Json.decodeCEP body).map fun cep => { CEP := cep }
    getenv := fun _ => ""
    marshalCEPRequest := fun req => .ok (bytesOf ("\x7b\"cep\":\"" ++ req.CEP ++ "\"\x7d"))
    newRequest := fun _ _ => none
    roundTrip := fun _ => downstream
    ids := ids }

/-- A Lookup world whose request bodies are decoded as `encoding/json` decodes them. Every
outbound call is answered 200, every directory body decodes to `record`, the weather credential
is `apiKey` and the weather provider reports 25 degrees Celsius for every city. -/
def jsonLookup (record : ServiceB.ViaCEPResponse) (apiKey : String) : ServiceB.World :=
  { decodeCEPRequest := fun body => (Json.decodeCEP body).map fun cep => { CEP := cep }
    getenv := fun name => if name = "WEATHER_API_KEY" then apiKey else ""
    newRequest := fun _ _ => none
    roundTrip := fun _ => .response 200 (.ok [])
    unmarshalViaCEP := fun _ => .ok record
    unmarshalWeather := fun _ => .ok { Current := { TempC := 25 } }
    ids := ids }

/-- The body `{"cep":"01001000"}x`: a JSON object followed by one more byte. -/
def trailingBody : Bytes :=
  bytesOf "\x7b\"cep\":\"01001000\"\x7dx"

/-- The body `null`. -/
def nullBody : Bytes :=
  bytesOf "null"

/-- The body `{}`. -/
def emptyObjectBody : Bytes :=
  bytesOf "\x7b\x7d"

/-- The request that the Gateway world forwards for the code `01001000`. -/
def forwarded (downstream : HttpResult) : OutRequest :=
  { Method := "POST"
    URL := "http://localhost:8081/weather"
    Header := inject (some (ServiceA.forwardSpan (gateway downstream)))
      (Header.empty.Set "Content-Type" "application/json")
    Body := bytesOf "01001000" }

/-- The forwarded request as the Lookup service receives it. -/
def received (downstream : HttpResult) : Request :=
  { Method := "POST", Header := (forwarded downstream).Header, Body := bytesOf "01001000" }

end Demo

/-! ## Theorems -/

open Go

theorem step_digit (k : Nat) (l : List Char) :
    Regex.digit.step (k, l) =
      match l with
      | c :: rest => if isPerlDigit c then [(k + 1, rest)] else []
      | [] => [] := by
  simp [Regex.step]

theorem repeat_digit_step (n : Nat) (k : Nat) (l : List Char) :
    repeatStep Regex.digit.step n (k, l) =
      if n ≤ l.length ∧ ∀ c ∈ l.take n, isPerlDigit c = true then [(k + n, l.drop n)] else [] := by
  induction n generalizing k l with
  | zero => simp [repeatStep]
  | succ n ih =>
    cases l with
    | nil => simp [repeatStep, step_digit]
    | cons c rest =>
      by_cases hc : isPerlDigit c = true
      · simp [repeatStep, step_digit, hc, ih, Nat.add_assoc, Nat.add_comm 1 n]
      · simp [repeatStep, step_digit, hc]

theorem rep_digit_step (n : Nat) (k : Nat) (l : List Char) :
    (Regex.rep n .digit).step (k, l) =
      if n ≤ l.length ∧ ∀ c ∈ l.take n, isPerlDigit c = true then [(k + n, l.drop n)] else [] := by
  rw [← repeat_digit_step]
  simp [Regex.step]

theorem step_seq (a b : Regex) (p : Pos) :
    (Regex.seq a b).step p = (a.step p).flatMap b.step := by
  simp [Regex.step]

theorem step_beginText (p : Pos) :
    Regex.beginText.step p = if p.1 = 0 then [p] else [] := by
  simp [Regex.step]

theorem step_endText (p : Pos) :
    Regex.endText.step p = if p.2 = [] then [p] else [] := by
  simp [Regex.step]

theorem cepPattern_step (i : Nat) (l : List Char) :
    (cepPattern.step (i, l)).isEmpty = false ↔
      i = 0 ∧ l.length = 8 ∧ ∀ c ∈ l, isPerlDigit c = true := by
  unfold cepPattern
  rw [step_seq, step_beginText]
  by_cases hi : i = 0
  · subst hi
    simp only [if_true, List.flatMap_cons, List.flatMap_nil, List.append_nil, step_seq,
      rep_digit_step, true_and]
    by_cases h8 : 8 ≤ l.length ∧ ∀ c ∈ l.take 8, isPerlDigit c = true
    · rw [if_pos h8]
      simp only [List.flatMap_cons, List.flatMap_nil, List.append_nil, step_endText]
      by_cases hl : l.length = 8
      · have ht : l.take 8 = l := by rw [← hl]; exact List.take_length l
        have hd : l.drop 8 = [] := by rw [← hl]; exact List.drop_length l
        rw [ht] at h8
        simpa [hd, hl] using h8.2
      · have hd : l.drop 8 ≠ [] := by
          intro h
          have := List.drop_eq_nil_iff.mp h
          omega
        simp [hd, hl]
    · rw [if_neg h8]
      have hn : ¬ (l.length = 8 ∧ ∀ c ∈ l, isPerlDigit c = true) := by
        rintro ⟨hl, hall⟩
        exact h8 ⟨by omega, fun c hc => hall c (List.mem_of_mem_take hc)⟩
      simpa using hn
  · simp [hi]

theorem matchString_cepPattern (s : String) :
    MatchString cepPattern s = true ↔
      s.length = 8 ∧ ∀ c ∈ s.data, 48 ≤ c.toNat ∧ c.toNat ≤ 57 := by
  unfold MatchString
  simp only [List.any_eq_true, List.mem_range, Bool.not_eq_true', cepPattern_step]
  constructor
  · rintro ⟨i, _, hi, hl, hall⟩
    subst hi
    simp only [List.drop_zero] at hl hall
    refine ⟨hl, fun c hc => ?_⟩
    simpa [isPerlDigit] using hall c hc
  · rintro ⟨hl, hall⟩
    refine ⟨0, by omega, rfl, by simpa using hl, fun c hc => ?_⟩
    simp only [List.drop_zero] at hc
    simpa [isPerlDigit] using hall c hc

/-! ### Trace-context header -/

open Otel

theorem hexValue_hexDigit (d : Nat) (h : d < 16) : hexValue (hexDigit d) = some d := by
  interval_cases d <;> decide

theorem toHex_length (w n : Nat) : (toHex w n).length = w := by
  induction w generalizing n with
  | zero => rfl
  | succ w ih => simp [toHex, ih]

theorem fromHexAux_append (acc : Nat) (xs ys : List Char) :
    fromHexAux acc (xs ++ ys) = (fromHexAux acc xs).bind fun a => fromHexAux a ys := by
  induction xs generalizing acc with
  | nil => simp [fromHexAux]
  | cons c cs ih =>
    simp only [List.cons_append, fromHexAux]
    cases hexValue c with
    | none => simp
    | some d => simpa using ih _

theorem fromHexAux_toHex (w acc n : Nat) :
    fromHexAux acc (toHex w n) = some (acc * 16 ^ w + n % 16 ^ w) := by
  induction w generalizing n acc with
  | zero => simp [toHex, fromHexAux, Nat.mod_one]
  | succ w ih =>
    simp only [toHex, fromHexAux_append, ih, Option.some_bind, fromHexAux,
      hexValue_hexDigit _ (Nat.mod_lt n (by decide : 0 < 16))]
    congr 1
    have h1 : n % 16 ^ (w + 1) = 16 * (n / 16 % 16 ^ w) + n % 16 := by
      rw [pow_succ, Nat.mul_comm, Nat.mod_mul]
      omega
    rw [h1, pow_succ]
    ring

theorem fromHex_toHex (w n : Nat) (h : n < 16 ^ w) : fromHex (toHex w n) = some n := by
  simp [fromHex, fromHexAux_toHex, Nat.mod_eq_of_lt h]

theorem parseTraceparent_fields (a b c : List Char) (t p f : Nat)
    (la : a.length = 32) (lb : b.length = 16) (lc : c.length = 2)
    (ha : fromHex a = some t) (hb : fromHex b = some p) (hc : fromHex c = some f)
    (ht : t ≠ 0) (hp : p ≠ 0) :
    parseTraceparent ⟨['0', '0', '-'] ++ a ++ ['-'] ++ b ++ ['-'] ++ c⟩ =
      some { traceID := t, spanID := p, sampled := f % 2 = 1 } := by
  unfold parseTraceparent
  simp only [List.cons_append, List.nil_append, List.append_assoc, List.take_succ_cons,
    List.take_zero, List.drop_succ_cons, List.drop_zero]
  rw [List.drop_left' la, List.take_left' la]
  simp only [List.cons_append, List.nil_append]
  rw [List.drop_left' lb, List.take_left' lb]
  simp [la, lb, lc, ha, hb, hc, ht, hp]

theorem parseTraceparent_traceparent (sc : SpanContext) (h : sc.IsValid = true) :
    parseTraceparent (traceparent sc) = some sc := by
  obtain ⟨t, p, f⟩ := sc
  simp only [SpanContext.IsValid, Bool.and_eq_true, decide_eq_true_eq] at h
  obtain ⟨⟨⟨ht0, ht⟩, hp0⟩, hp⟩ := h
  have e1 : fromHex (toHex 32 t) = some t := fromHex_toHex 32 t (by
    rw [show (16 : Nat) ^ 32 = 2 ^ 128 by norm_num]; exact ht)
  have e2 : fromHex (toHex 16 p) = some p := fromHex_toHex 16 p (by
    rw [show (16 : Nat) ^ 16 = 2 ^ 64 by norm_num]; exact hp)
  have e3 : fromHex (toHex 2 (if f = true then 1 else 0)) = some (if f = true then 1 else 0) :=
    fromHex_toHex 2 _ (by split <;> norm_num)
  have key := parseTraceparent_fields _ _ _ t p _ (toHex_length 32 t) (toHex_length 16 p)
    (toHex_length 2 (if f = true then 1 else 0)) e1 e2 e3 (Nat.pos_iff_ne_zero.mp ht0)
    (Nat.pos_iff_ne_zero.mp hp0)
  unfold traceparent
  rw [key]
  cases f <;> simp

theorem header_get_set (h : Header) (k v : String) : (h.Set k v).Get k = v := by
  simp [Header.Set, Header.Get]

/-- C2: in both services `isValidCEP s` holds exactly when `s` has 8 characters and each of them
is an ASCII decimal digit (code points 48 to 57); every other string is rejected. -/
theorem isValidCEP_iff_eight_ascii_digits (s : String) :
    (ServiceA.isValidCEP s = true ↔
        s.length = 8 ∧ ∀ c ∈ s.data, 48 ≤ c.toNat ∧ c.toNat ≤ 57) ∧
    (ServiceB.isValidCEP s = true ↔
        s.length = 8 ∧ ∀ c ∈ s.data, 48 ≤ c.toNat ∧ c.toNat ≤ 57) :=
  ⟨matchString_cepPattern s, matchString_cepPattern s⟩

/-! ### Lookup service -/

theorem eightDigits_eq_isValidCEP (s : String) : Spec.eightDigits s = ServiceB.isValidCEP s := by
  rw [Bool.eq_iff_iff]
  unfold ServiceB.isValidCEP
  rw [matchString_cepPattern]
  simp [Spec.eightDigits]

theorem writeHeader_final (w : ResponseWriter) (status : Nat) (hp : w.panicked = false)
    (hs : w.status = none) (h1 : 200 ≤ status) (h2 : status ≤ 999) :
    w.WriteHeader status = { w with status := some status } := by
  unfold ResponseWriter.WriteHeader
  have h3 : ¬ (status < 100 ∨ 999 < status) := by omega
  have h4 : ¬ (status ≤ 199 ∧ status ≠ 101) := by omega
  simp [hp, hs, h3, h4]

theorem lookup_respondWithError_new (status : Nat) (message : String)
    (h1 : 200 ≤ status) (h2 : status ≤ 999) (h3 : status ≠ 204) (h4 : status ≠ 304) :
    ServiceB.respondWithError ResponseWriter.new status message =
      { header := Header.empty.Set "Content-Type" "application/json", status := some status,
        body := [.json [("message", .str message)]] } := by
  unfold ServiceB.respondWithError
  simp only [ResponseWriter.SetHeader, ResponseWriter.new, Bool.false_eq_true, if_false]
  rw [writeHeader_final _ status rfl rfl h1 h2]
  have hb : bodyAllowedForStatus status = true := by
    simp only [bodyAllowedForStatus, Bool.and_eq_true, Bool.not_eq_true', bne_iff_ne, ne_eq,
      Bool.and_eq_false_imp, decide_eq_true_eq, decide_eq_false_iff_not]
    omega
  simp [ResponseWriter.Encode, ResponseWriter.Write, ResponseWriter.WriteHeader,
    ResponseWriter.statusCode, ServiceB.ErrorResponse.toJson, JsonField.encodes, Chunk.isEmpty, hb]

theorem weather_response_writer (o : JsonObject) :
    ((ResponseWriter.new.SetHeader "Content-Type" "application/json").WriteHeader 200).Encode o =
      { header := Header.empty.Set "Content-Type" "application/json", status := some 200,
        body := if (o.all fun field => field.2.encodes) = true then [.json o] else [] } := by
  simp only [ResponseWriter.SetHeader, ResponseWriter.new, Bool.false_eq_true, if_false]
  rw [writeHeader_final _ 200 rfl rfl (by decide) (by decide)]
  unfold ResponseWriter.Encode
  by_cases h : (o.all fun field => field.2.encodes) = true
  · simp only [h, if_true]
    rfl
  · simp only [h, if_false]
    rfl

theorem viaCEP_status_text_ne (n : Nat) :
    GoError.Error ⟨"ViaCEP returned status " ++ toString n⟩ ≠ Spec.notFoundText := by
  intro h
  have h2 := congrArg (fun s => s.data.head?) h
  have h3 : ("ViaCEP returned status " ++ toString n).data.head? = some 'V' := rfl
  have h4 : Spec.notFoundText.data.head? = some 'C' := rfl
  simp only [GoError.Error] at h2
  rw [h3, h4] at h2
  exact absurd h2 (by decide)

theorem fetchLocationByCEP_outcome (W : ServiceB.World) (ctx : Context) (fx : Effects)
    (cep : String) (hLib : Spec.LibraryErrorTexts W) :
    match Spec.directoryOutcome W cep with
    | .found city => (ServiceB.fetchLocationByCEP W ctx fx cep).1 = .ok city
    | .notFound => (ServiceB.fetchLocationByCEP W ctx fx cep).1 = .error ⟨Spec.notFoundText⟩
    | .failed => ∃ e, (ServiceB.fetchLocationByCEP W ctx fx cep).1 = .error e ∧
        e.Error ≠ Spec.notFoundText := by
  obtain ⟨h1, h2, h3, h4⟩ := hLib
  unfold Spec.directoryOutcome ServiceB.fetchLocationByCEP
  dsimp only
  cases hn : W.newRequest "GET" (ServiceB.viaCEPURL cep) with
  | some e => exact ⟨e, rfl, h1 _ e hn⟩
  | none =>
    dsimp only
    cases hr : W.roundTrip (ServiceB.getRequest (ServiceB.viaCEPURL cep)) with
    | doError e => exact ⟨e, rfl, h2 _ e hr⟩
    | response status readAll =>
      by_cases hs : status = 200
      · subst hs
        cases readAll with
        | error e => exact ⟨e, by simp, h3 _ _ e hr⟩
        | ok body =>
          simp only [ne_eq, not_true_eq_false, if_false, if_true]
          cases hu : W.unmarshalViaCEP body with
          | error e => exact ⟨e, rfl, h4 _ e hu⟩
          | ok record => cases he : record.Erro <;> simp [he, Spec.notFoundText]
      · cases readAll with
        | error e => exact ⟨_, by simp [hs], viaCEP_status_text_ne status⟩
        | ok body =>
          simp only [hs, if_false]
          exact ⟨_, by simp [hs], viaCEP_status_text_ne status⟩
theorem fetchTemperature_outcome (W : ServiceB.World) (ctx : Context) (fx : Effects)
    (city : String) :
    match Spec.weatherOutcome W city with
    | some c => (ServiceB.fetchTemperature W ctx fx city).1 = .ok c
    | none => ∃ e, (ServiceB.fetchTemperature W ctx fx city).1 = .error e := by
  unfold Spec.weatherOutcome ServiceB.fetchTemperature
  dsimp only
  by_cases hk : W.getenv "WEATHER_API_KEY" = ""
  · simp only [hk, if_true]
    exact ⟨_, rfl⟩
  · simp only [hk, if_false]
    cases hn : W.newRequest "GET"
        (ServiceB.weatherURL (W.getenv "WEATHER_API_KEY") city) with
    | some e => exact ⟨e, rfl⟩
    | none =>
      dsimp only
      cases hr : W.roundTrip (ServiceB.getRequest
          (ServiceB.weatherURL (W.getenv "WEATHER_API_KEY") city)) with
      | doError e => exact ⟨e, rfl⟩
      | response status readAll =>
        by_cases hs : status = 200
        · subst hs
          cases readAll with
          | error e => exact ⟨e, by simp⟩
          | ok body =>
            simp only [ne_eq, not_true_eq_false, if_false, if_true]
            cases hu : W.unmarshalWeather body with
            | error e => exact ⟨e, rfl⟩
            | ok reading => rfl
        · cases readAll with
          | error e =>
            exact ⟨⟨"WeatherAPI returned status " ++ toString status⟩, by simp [hs]⟩
          | ok body =>
            simp only [hs, if_false]
            exact ⟨⟨"WeatherAPI returned status " ++ toString status⟩, by simp [hs]⟩

/-- C1: for a `POST` request the status and the message of the answer of `handleWeather` are
those the table of section 4.2 gives for the first failing transition, the status is 200 when
no transition fails, and 404 is answered exactly when the directory call succeeded and reported
not-found. Errors raised inside the standard library are taken not to read `CEP not found`. -/
theorem handleWeather_status_by_first_failure (W : ServiceB.World) (r : Request)
    (hPost : r.Method = "POST") (hLib : Spec.LibraryErrorTexts W) :
    (match Spec.firstFailure W r with
      | some t =>
        (ServiceB.handleWeather W r).w.statusCode = (Spec.errorTable t).1 ∧
        (ServiceB.handleWeather W r).w.body = [.json [("message", .str (Spec.errorTable t).2)]]
      | none => (ServiceB.handleWeather W r).w.statusCode = 200) ∧
    ((ServiceB.handleWeather W r).w.statusCode = 404 ↔
      Spec.firstFailure W r = some .directoryNotFound) := by
  unfold Spec.firstFailure ServiceB.handleWeather
  simp only [hPost, ne_eq, not_true_eq_false, if_false]
  cases hd : W.decodeCEPRequest r.Body with
  | error e => simp [lookup_respondWithError_new, ResponseWriter.statusCode, Spec.errorTable]
  | ok req =>
    simp only [eightDigits_eq_isValidCEP]
    cases hv : ServiceB.isValidCEP req.CEP with
    | false => simp [lookup_respondWithError_new, ResponseWriter.statusCode, Spec.errorTable]
    | true =>
      simp only [Bool.not_true, Bool.false_eq_true, if_false, if_true]
      have hloc := fetchLocationByCEP_outcome W
        (some (tracerStart W.ids 0 (extract none r.Header)))
        { calls := [],
          spans := [("handle-weather-request", tracerStart W.ids 0 (extract none r.Header))] }
        req.CEP hLib
      generalize ServiceB.fetchLocationByCEP W _ _ req.CEP = p at hloc ⊢
      obtain ⟨res, fx1⟩ := p
      cases hdo : Spec.directoryOutcome W req.CEP with
      | failed =>
        rw [hdo] at hloc
        obtain ⟨e, he, hne⟩ := hloc
        simp only at he
        subst he
        have hne2 : ¬ e.Error = "CEP not found" := hne
        simp [hne2, lookup_respondWithError_new, ResponseWriter.statusCode, Spec.errorTable]
      | notFound =>
        rw [hdo] at hloc
        simp only at hloc
        subst hloc
        simp [GoError.Error, Spec.notFoundText, lookup_respondWithError_new,
          ResponseWriter.statusCode, Spec.errorTable]
      | found city =>
        rw [hdo] at hloc
        simp only at hloc
        subst hloc
        simp only
        have htemp := fetchTemperature_outcome W
          (some (tracerStart W.ids 0 (extract none r.Header))) fx1 city
        generalize ServiceB.fetchTemperature W _ _ city = q at htemp ⊢
        obtain ⟨res2, fx2⟩ := q
        cases hw : Spec.weatherOutcome W city with
        | none =>
          rw [hw] at htemp
          obtain ⟨e, he⟩ := htemp
          simp only at he
          subst he
          simp [lookup_respondWithError_new, ResponseWriter.statusCode, Spec.errorTable]
        | some c =>
          rw [hw] at htemp
          simp only at htemp
          subst htemp
          simp [weather_response_writer, ResponseWriter.statusCode]

theorem gateway_respondWithError_new (status : Nat) (message : String)
    (h1 : 200 ≤ status) (h2 : status ≤ 999) (h3 : status ≠ 204) (h4 : status ≠ 304) :
    ServiceA.respondWithError ResponseWriter.new status message =
      { header := Header.empty.Set "Content-Type" "application/json", status := some status,
        body := [.json [("message", .str message)]] } := by
  unfold ServiceA.respondWithError
  simp only [ResponseWriter.SetHeader, ResponseWriter.new, Bool.false_eq_true, if_false]
  rw [writeHeader_final _ status rfl rfl h1 h2]
  have hb : bodyAllowedForStatus status = true := by
    simp only [bodyAllowedForStatus, Bool.and_eq_true, Bool.not_eq_true', bne_iff_ne, ne_eq,
      Bool.and_eq_false_imp, decide_eq_true_eq, decide_eq_false_iff_not]
    omega
  simp [ResponseWriter.Encode, ResponseWriter.Write, ResponseWriter.WriteHeader,
    ResponseWriter.statusCode, ServiceA.ErrorResponse.toJson, JsonField.encodes, Chunk.isEmpty, hb]

theorem handleCEP_forward (W : ServiceA.World) (r : Request) (req : ServiceA.CEPRequest)
    (hPost : r.Method = "POST") (hdec : W.decodeCEPRequest r.Body = .ok req)
    (hvalid : ServiceA.isValidCEP req.CEP = true) :
    ServiceA.handleCEP W r =
      match ServiceA.forwardAttempt W req with
      | (.error _, fx) =>
        { w := ServiceA.respondWithError ResponseWriter.new 500 "internal server error",
          fx := fx }
      | (.ok (response, statusCode), fx) =>
        { w := ((ResponseWriter.new.SetHeader "Content-Type" "application/json").WriteHeader
                statusCode).Write (.raw response),
          fx := fx } := by
  unfold ServiceA.handleCEP ServiceA.forwardAttempt
  simp only [hPost, ne_eq, not_true_eq_false, if_false, hdec, hvalid, Bool.not_true,
    Bool.false_eq_true]
  rfl

/-- C5: for a `POST` request with a decodable body and a valid code, when the forwarding
attempt ends in an error, the Gateway answers 500 with the message `internal server error`;
the answer is the same whatever the error is. -/
theorem handleCEP_forward_failure (W : ServiceA.World) (r : Request)
    (req : ServiceA.CEPRequest) (e : GoError)
    (hPost : r.Method = "POST") (hdec : W.decodeCEPRequest r.Body = .ok req)
    (hvalid : ServiceA.isValidCEP req.CEP = true)
    (hfail : (ServiceA.forwardAttempt W req).1 = .error e) :
    (ServiceA.handleCEP W r).w =
      { header := Header.empty.Set "Content-Type" "application/json", status := some 500,
        body := [.json [("message", .str "internal server error")]] } ∧
    (ServiceA.handleCEP W r).w.statusCode = 500 := by
  rw [handleCEP_forward W r req hPost hdec hvalid]
  generalize ServiceA.forwardAttempt W req = p at hfail ⊢
  obtain ⟨res, fx⟩ := p
  simp only at hfail
  subst hfail
  exact ⟨rfl, rfl⟩

/-- C6: for a `POST` request whose body decodes to a code that is not 8 ASCII digits, the
Gateway answers 422 with the message `invalid zipcode` and makes no outbound call; the outcome
is the same whatever the Lookup service would answer. -/
theorem handleCEP_invalid_code (W : ServiceA.World) (r : Request) (req : ServiceA.CEPRequest)
    (hPost : r.Method = "POST") (hdec : W.decodeCEPRequest r.Body = .ok req)
    (hbad : ¬ (req.CEP.length = 8 ∧ ∀ c ∈ req.CEP.data, 48 ≤ c.toNat ∧ c.toNat ≤ 57)) :
    (ServiceA.handleCEP W r).w.statusCode = 422 ∧
    (ServiceA.handleCEP W r).w.body = [.json [("message", .str "invalid zipcode")]] ∧
    (ServiceA.handleCEP W r).fx.calls = [] ∧
    (∀ downstream : OutRequest → HttpResult,
      (ServiceA.handleCEP { W with roundTrip := downstream } r).w = (ServiceA.handleCEP W r).w ∧
      (ServiceA.handleCEP { W with roundTrip := downstream } r).fx.calls = []) := by
  have hv : ServiceA.isValidCEP req.CEP = false := by
    rw [← Bool.not_eq_true]
    unfold ServiceA.isValidCEP
    rw [matchString_cepPattern]
    exact hbad
  have key : ∀ W2 : ServiceA.World, W2.decodeCEPRequest r.Body = .ok req →
      (ServiceA.handleCEP W2 r).w = ServiceA.respondWithError ResponseWriter.new 422
        "invalid zipcode" ∧ (ServiceA.handleCEP W2 r).fx.calls = [] := by
    intro W2 h2
    unfold ServiceA.handleCEP
    simp only [hPost, ne_eq, not_true_eq_false, if_false, h2, hv, Bool.not_false, if_true,
      Effects.span, and_self]
  obtain ⟨k1, k2⟩ := key W hdec
  refine ⟨by rw [k1]; rfl, by rw [k1]; rfl, k2, fun downstream => ?_⟩
  obtain ⟨k3, k4⟩ := key { W with roundTrip := downstream } hdec
  exact ⟨by rw [k3, k1], k4⟩

/-- C7 (amended): a `POST` request whose body `Decode` rejects (it returns an error) is answered
400 with the message `invalid request body` by the Gateway and by the Lookup service, and no
later step runs: no outbound call is made and no span besides the one of the handler is
started. -/
theorem decode_failure_is_bad_request (WA : ServiceA.World) (WB : ServiceB.World)
    (rA rB : Request) (eA eB : GoError)
    (hPostA : rA.Method = "POST") (hPostB : rB.Method = "POST")
    (hdecA : WA.decodeCEPRequest rA.Body = .error eA)
    (hdecB : WB.decodeCEPRequest rB.Body = .error eB) :
    ((ServiceA.handleCEP WA rA).w.statusCode = 400 ∧
      (ServiceA.handleCEP WA rA).w.body = [.json [("message", .str "invalid request body")]] ∧
      (ServiceA.handleCEP WA rA).fx.calls = [] ∧
      (ServiceA.handleCEP WA rA).fx.spans.map Prod.fst = ["handle-cep-request"]) ∧
    ((ServiceB.handleWeather WB rB).w.statusCode = 400 ∧
      (ServiceB.handleWeather WB rB).w.body =
        [.json [("message", .str "invalid request body")]] ∧
      (ServiceB.handleWeather WB rB).fx.calls = [] ∧
      (ServiceB.handleWeather WB rB).fx.spans.map Prod.fst = ["handle-weather-request"]) := by
  have eA400 := gateway_respondWithError_new 400 "invalid request body" (by decide) (by decide)
    (by decide) (by decide)
  have eB400 := lookup_respondWithError_new 400 "invalid request body" (by decide) (by decide)
    (by decide) (by decide)
  constructor
  · unfold ServiceA.handleCEP
    simp only [hPostA, ne_eq, not_true_eq_false, if_false, hdecA, eA400,
      ResponseWriter.statusCode, Option.getD_some, List.map, and_self]
  · unfold ServiceB.handleWeather
    simp only [hPostB, ne_eq, not_true_eq_false, if_false, hdecB, eB400,
      ResponseWriter.statusCode, Option.getD_some, List.map, and_self]

/-! ### Error bodies -/

theorem fetchLocationByCEP_fst (W : ServiceB.World) (ctx ctx2 : Context) (fx fx2 : Effects)
    (cep : String) :
    (ServiceB.fetchLocationByCEP W ctx fx cep).1 =
      (ServiceB.fetchLocationByCEP W ctx2 fx2 cep).1 := by
  unfold ServiceB.fetchLocationByCEP
  dsimp only
  cases W.newRequest "GET" (ServiceB.viaCEPURL cep) with
  | some e => rfl
  | none =>
    dsimp only
    cases W.roundTrip (ServiceB.getRequest (ServiceB.viaCEPURL cep)) with
    | doError e => rfl
    | response status readAll =>
      by_cases hs : status = 200
      · subst hs
        cases readAll with
        | error e => rfl
        | ok body =>
          simp only [ne_eq, not_true_eq_false, if_false]
          cases W.unmarshalViaCEP body with
          | error e => rfl
          | ok record => cases he : record.Erro <;> simp [he]
      · simp only [ne_eq, hs, not_false_eq_true, if_true]

theorem fetchTemperature_fst (W : ServiceB.World) (ctx ctx2 : Context) (fx fx2 : Effects)
    (city : String) :
    (ServiceB.fetchTemperature W ctx fx city).1 =
      (ServiceB.fetchTemperature W ctx2 fx2 city).1 := by
  unfold ServiceB.fetchTemperature
  dsimp only
  by_cases hk : W.getenv "WEATHER_API_KEY" = ""
  · simp only [hk, if_true]
  · simp only [hk, if_false]
    cases W.newRequest "GET" (ServiceB.weatherURL (W.getenv "WEATHER_API_KEY") city) with
    | some e => rfl
    | none =>
      dsimp only
      cases W.roundTrip (ServiceB.getRequest
          (ServiceB.weatherURL (W.getenv "WEATHER_API_KEY") city)) with
      | doError e => rfl
      | response status readAll =>
        by_cases hs : status = 200
        · subst hs
          cases readAll with
          | error e => rfl
          | ok body =>
            simp only [ne_eq, not_true_eq_false, if_false]
            cases W.unmarshalWeather body with
            | error e => rfl
            | ok reading => rfl
        · simp only [ne_eq, hs, not_false_eq_true, if_true]

/-- The answer of `handleWeather` to a `POST` request, as a function of the results of the two
steps only. -/
theorem handleWeather_post_answer (W : ServiceB.World) (r : Request)
    (hPost : r.Method = "POST") :
    (ServiceB.handleWeather W r).w =
      match W.decodeCEPRequest r.Body with
      | .error _ => ServiceB.respondWithError ResponseWriter.new 400 "invalid request body"
      | .ok req =>
        if ServiceB.isValidCEP req.CEP then
          match (ServiceB.fetchLocationByCEP W none ⟨[], []⟩ req.CEP).1 with
          | .error err =>
            if err.Error = "CEP not found" then
              ServiceB.respondWithError ResponseWriter.new 404 "can not find zipcode"
            else ServiceB.respondWithError ResponseWriter.new 500 "internal server error"
          | .ok location =>
            match (ServiceB.fetchTemperature W none ⟨[], []⟩ location).1 with
            | .error _ =>
              ServiceB.respondWithError ResponseWriter.new 500 "internal server error"
            | .ok tempC =>
              ((ResponseWriter.new.SetHeader "Content-Type" "application/json").WriteHeader
                200).Encode (ServiceB.WeatherResponse.toJson
                  { City := location, TempC := tempC,
                    TempF := ServiceB.celsiusToFahrenheit tempC,
                    TempK := ServiceB.celsiusToKelvin tempC })
        else ServiceB.respondWithError ResponseWriter.new 422 "invalid zipcode" := by
  unfold ServiceB.handleWeather
  simp only [hPost, ne_eq, not_true_eq_false, if_false]
  cases W.decodeCEPRequest r.Body with
  | error e => rfl
  | ok req =>
    dsimp only
    cases hv : ServiceB.isValidCEP req.CEP with
    | false => simp
    | true =>
      simp only [Bool.not_true, Bool.false_eq_true, if_false, if_true]
      have h1 := fetchLocationByCEP_fst W
        (some (tracerStart W.ids 0 (extract none r.Header))) none
        { calls := [],
          spans := [("handle-weather-request", tracerStart W.ids 0 (extract none r.Header))] }
        ⟨[], []⟩ req.CEP
      rw [← h1]
      generalize ServiceB.fetchLocationByCEP W _ _ req.CEP = p
      obtain ⟨res, fx1⟩ := p
      cases res with
      | error err =>
        dsimp only
        by_cases ht : err.Error = "CEP not found" <;> simp [ht]
      | ok location =>
        simp only
        have h2 := fetchTemperature_fst W
          (some (tracerStart W.ids 0 (extract none r.Header))) none fx1 ⟨[], []⟩ location
        rw [← h2]
        generalize ServiceB.fetchTemperature W _ _ location = q
        obtain ⟨res2, fx2⟩ := q
        cases res2 with
        | error err => rfl
        | ok tempC => rfl

theorem handleCEP_method_not_allowed (W : ServiceA.World) (r : Request)
    (h : r.Method ≠ "POST") :
    (ServiceA.handleCEP W r).w = httpError ResponseWriter.new "Method not allowed" 405 := by
  unfold ServiceA.handleCEP
  simp [h]

theorem handleWeather_method_not_allowed (W : ServiceB.World) (r : Request)
    (h : r.Method ≠ "POST") :
    (ServiceB.handleWeather W r).w = httpError ResponseWriter.new "Method not allowed" 405 := by
  unfold ServiceB.handleWeather
  simp [h]

/-- C8 (amended): every answer that the Gateway or the Lookup service produces itself to a
`POST` request with a status other than 200 has a body of the `ErrorEnvelope` shape (for the
Gateway: every answer to a `POST` request that is not the relayed downstream response); the 405
answer to a request with another method is the plain text line `Method not allowed`. -/
theorem error_envelope_on_post (WA : ServiceA.World) (WB : ServiceB.World)
    (r other : Request) (hPost : r.Method = "POST") (hOther : other.Method ≠ "POST") :
    (Spec.isErrorEnvelope (ServiceA.handleCEP WA r).w = true ∨
      ∃ req b s, WA.decodeCEPRequest r.Body = .ok req ∧ ServiceA.isValidCEP req.CEP = true ∧
        (ServiceA.forwardAttempt WA req).1 = .ok (b, s)) ∧
    ((ServiceB.handleWeather WB r).w.statusCode ≠ 200 →
      Spec.isErrorEnvelope (ServiceB.handleWeather WB r).w = true) ∧
    ((ServiceA.handleCEP WA other).w.statusCode = 405 ∧
      (ServiceA.handleCEP WA other).w.body = [.line "Method not allowed"] ∧
      (ServiceB.handleWeather WB other).w.statusCode = 405 ∧
      (ServiceB.handleWeather WB other).w.body = [.line "Method not allowed"]) := by
  refine ⟨?_, ?_, ?_⟩
  · cases hd : WA.decodeCEPRequest r.Body with
    | error e =>
      left
      unfold ServiceA.handleCEP
      simp only [hPost, ne_eq, not_true_eq_false, if_false, hd]
      rfl
    | ok req =>
      cases hv : ServiceA.isValidCEP req.CEP with
      | false =>
        left
        unfold ServiceA.handleCEP
        simp only [hPost, ne_eq, not_true_eq_false, if_false, hd, hv, Bool.not_false, if_true]
        rfl
      | true =>
        rw [handleCEP_forward WA r req hPost hd hv]
        rcases hf : ServiceA.forwardAttempt WA req with ⟨res, fx⟩
        cases res with
        | error e => left; rfl
        | ok p => right; exact ⟨req, p.1, p.2, rfl, hv, by rw [hf]⟩
  · rw [handleWeather_post_answer WB r hPost]
    cases WB.decodeCEPRequest r.Body with
    | error e => intro _; rfl
    | ok req =>
      dsimp only
      cases ServiceB.isValidCEP req.CEP with
      | false => intro _; rfl
      | true =>
        simp only [if_true]
        cases (ServiceB.fetchLocationByCEP WB none ⟨[], []⟩ req.CEP).1 with
        | error err =>
          dsimp only
          by_cases ht : err.Error = "CEP not found"
          · simp only [ht, if_true]; intro _; rfl
          · simp only [ht, if_false]; intro _; rfl
        | ok location =>
          dsimp only
          cases (ServiceB.fetchTemperature WB none ⟨[], []⟩ location).1 with
          | error err => intro _; rfl
          | ok tempC =>
            intro h
            exfalso
            apply h
            dsimp only
            rw [weather_response_writer]
            rfl
  · rw [handleCEP_method_not_allowed WA other hOther,
      handleWeather_method_not_allowed WB other hOther]
    exact ⟨rfl, rfl, rfl, rfl⟩

/-! ### Trace context across the two services -/

theorem fetchLocationByCEP_spans (W : ServiceB.World) (ctx : Context) (fx : Effects)
    (cep : String) :
    (ServiceB.fetchLocationByCEP W ctx fx cep).2.spans =
      fx.spans ++ [("fetch-location-viacep", tracerStart W.ids fx.spans.length ctx)] := by
  unfold ServiceB.fetchLocationByCEP
  dsimp only
  cases W.newRequest "GET" (ServiceB.viaCEPURL cep) with
  | some e => rfl
  | none =>
    dsimp only
    cases W.roundTrip (ServiceB.getRequest (ServiceB.viaCEPURL cep)) with
    | doError e => rfl
    | response status readAll =>
      by_cases hs : status = 200
      · subst hs
        cases readAll with
        | error e => rfl
        | ok body =>
          simp only [ne_eq, not_true_eq_false, if_false]
          cases W.unmarshalViaCEP body with
          | error e => rfl
          | ok record => cases he : record.Erro <;> simp [he, Effects.span, Effects.call]
      · simp only [ne_eq, hs, not_false_eq_true, if_true]
        rfl

theorem fetchTemperature_spans (W : ServiceB.World) (ctx : Context) (fx : Effects)
    (city : String) :
    (ServiceB.fetchTemperature W ctx fx city).2.spans =
      fx.spans ++ [("fetch-temperature-weatherapi", tracerStart W.ids fx.spans.length ctx)] := by
  unfold ServiceB.fetchTemperature
  dsimp only
  by_cases hk : W.getenv "WEATHER_API_KEY" = ""
  · simp only [hk, if_true]
    rfl
  · simp only [hk, if_false]
    cases W.newRequest "GET" (ServiceB.weatherURL (W.getenv "WEATHER_API_KEY") city) with
    | some e => rfl
    | none =>
      dsimp only
      cases W.roundTrip (ServiceB.getRequest
          (ServiceB.weatherURL (W.getenv "WEATHER_API_KEY") city)) with
      | doError e => rfl
      | response status readAll =>
        by_cases hs : status = 200
        · subst hs
          cases readAll with
          | error e => rfl
          | ok body =>
            simp only [ne_eq, not_true_eq_false, if_false]
            cases W.unmarshalWeather body with
            | error e => rfl
            | ok reading => rfl
        · simp only [ne_eq, hs, not_false_eq_true, if_true]
          rfl

theorem handleWeather_handler_span (W : ServiceB.World) (r : Request) :
    (ServiceB.handleWeather W r).fx.spans.head? =
      some ("handle-weather-request", tracerStart W.ids 0 (extract none r.Header)) := by
  unfold ServiceB.handleWeather
  dsimp only
  by_cases hm : r.Method = "POST"
  · simp only [hm, ne_eq, not_true_eq_false, if_false]
    cases W.decodeCEPRequest r.Body with
    | error e => rfl
    | ok req =>
      dsimp only
      cases ServiceB.isValidCEP req.CEP with
      | false => rfl
      | true =>
        simp only [Bool.not_true, Bool.false_eq_true, if_false]
        have h1 := fetchLocationByCEP_spans W
          (some (tracerStart W.ids 0 (extract none r.Header)))
          { calls := [],
            spans := [("handle-weather-request", tracerStart W.ids 0 (extract none r.Header))] }
          req.CEP
        generalize ServiceB.fetchLocationByCEP W _ _ req.CEP = p at h1 ⊢
        obtain ⟨res, fx1⟩ := p
        simp only at h1
        cases res with
        | error err =>
          dsimp only
          by_cases ht : err.Error = "CEP not found" <;> simp [ht, h1]
        | ok location =>
          dsimp only
          have h2 := fetchTemperature_spans W
            (some (tracerStart W.ids 0 (extract none r.Header))) fx1 location
          generalize ServiceB.fetchTemperature W _ _ location = q at h2 ⊢
          obtain ⟨res2, fx2⟩ := q
          simp only at h2
          cases res2 <;> simp [h2, h1]
  · simp only [ne_eq, hm, not_false_eq_true, if_true]
    rfl

theorem forwardSpan_eq (W : ServiceA.World)
    (htrace : 0 < W.ids.newTraceID ∧ W.ids.newTraceID < 2 ^ 128)
    (hspan : ∀ n, n < 3 → 0 < W.ids.newSpanID n ∧ W.ids.newSpanID n < 2 ^ 64) :
    ServiceA.forwardSpan W =
      { traceID := W.ids.newTraceID, spanID := W.ids.newSpanID 2, sampled := true } ∧
    (ServiceA.forwardSpan W).IsValid = true := by
  have v : ∀ n, n < 3 → SpanContext.IsValid
      { traceID := W.ids.newTraceID, spanID := W.ids.newSpanID n, sampled := true } = true := by
    intro n hn
    simp only [SpanContext.IsValid, Bool.and_eq_true, decide_eq_true_eq]
    exact ⟨⟨⟨htrace.1, htrace.2⟩, (hspan n hn).1⟩, (hspan n hn).2⟩
  have e0 : ServiceA.handlerSpan W =
      { traceID := W.ids.newTraceID, spanID := W.ids.newSpanID 0, sampled := true } := rfl
  have e1 : ServiceA.validateSpan W =
      { traceID := W.ids.newTraceID, spanID := W.ids.newSpanID 1, sampled := true } := by
    unfold ServiceA.validateSpan
    rw [e0]
    simp [tracerStart, v 0 (by decide)]
  have e2 : ServiceA.forwardSpan W =
      { traceID := W.ids.newTraceID, spanID := W.ids.newSpanID 2, sampled := true } := by
    unfold ServiceA.forwardSpan
    rw [e1]
    simp [tracerStart, v 1 (by decide)]
  exact ⟨e2, by rw [e2]; exact v 2 (by decide)⟩

theorem handleCEP_forwarded_request (W : ServiceA.World) (r : Request) (q : OutRequest)
    (h : q ∈ (ServiceA.handleCEP W r).fx.calls) :
    q.Header = inject (some (ServiceA.forwardSpan W))
        (Header.empty.Set "Content-Type" "application/json") ∧
    (ServiceA.handleCEP W r).fx.spans =
      [("handle-cep-request", ServiceA.handlerSpan W), ("validate-cep", ServiceA.validateSpan W),
        ("forward-to-service-b", ServiceA.forwardSpan W)] := by
  by_cases hm : r.Method = "POST"
  · cases hd : W.decodeCEPRequest r.Body with
    | error e =>
      exfalso
      unfold ServiceA.handleCEP at h
      simp [hm, hd] at h
    | ok req =>
      cases hv : ServiceA.isValidCEP req.CEP with
      | false =>
        exfalso
        unfold ServiceA.handleCEP at h
        simp [hm, hd, hv, Effects.span] at h
      | true =>
        rw [handleCEP_forward W r req hm hd hv] at h ⊢
        unfold ServiceA.forwardAttempt ServiceA.forwardToServiceB at h ⊢
        cases hj : W.marshalCEPRequest req with
        | error e => simp [hj] at h
        | ok jsonData =>
          simp only [hj] at h ⊢
          cases hn : W.newRequest "POST" (ServiceA.serviceBURL W) with
          | some e => simp [hn] at h
          | none =>
            simp only [hn] at h ⊢
            cases hr : W.roundTrip
                { Method := "POST", URL := ServiceA.serviceBURL W,
                  Header := inject (some (ServiceA.forwardSpan W))
                    (Header.empty.Set "Content-Type" "application/json"),
                  Body := jsonData } with
            | doError e =>
              simp only [hr, Effects.call, List.nil_append, List.mem_singleton] at h ⊢
              subst h
              constructor <;> trivial
            | response status readAll =>
              cases readAll with
              | error e =>
                simp only [hr, Effects.call, List.nil_append, List.mem_singleton] at h ⊢
                subst h
                constructor <;> trivial
              | ok body =>
                simp only [hr, Effects.call, List.nil_append, List.mem_singleton] at h ⊢
                subst h
                constructor <;> trivial
  · exfalso
    unfold ServiceA.handleCEP at h
    simp [hm] at h

/-- C9: the trace id that the Gateway injects into the headers of a request it forwards (the
trace id of its span `forward-to-service-b`) is the trace id of the span under which the Lookup
service handles a request that carries that header; a request without a valid trace header
makes the Lookup service start a new trace, and its answer is the one it gives without any
header. The id generator of the Gateway is taken to draw valid ids. -/
theorem trace_id_continues_in_lookup (WA : ServiceA.World) (WB : ServiceB.World)
    (rA rB : Request) (q : OutRequest)
    (htrace : 0 < WA.ids.newTraceID ∧ WA.ids.newTraceID < 2 ^ 128)
    (hspan : ∀ n, n < 3 → 0 < WA.ids.newSpanID n ∧ WA.ids.newSpanID n < 2 ^ 64)
    (hsent : q ∈ (ServiceA.handleCEP WA rA).fx.calls)
    (hrecv : rB.Header.Get traceparentKey = q.Header.Get traceparentKey) :
    (∃ scA scB,
      (ServiceA.handleCEP WA rA).fx.spans.lookup "forward-to-service-b" = some scA ∧
      q.Header.Get traceparentKey = traceparent scA ∧
      extract none rB.Header = some scA ∧
      (ServiceB.handleWeather WB rB).fx.spans.head? = some ("handle-weather-request", scB) ∧
      scB.traceID = scA.traceID) ∧
    (∀ r : Request, parseTraceparent (r.Header.Get traceparentKey) = none →
      (∃ sc, (ServiceB.handleWeather WB r).fx.spans.head? =
          some ("handle-weather-request", sc) ∧ sc.traceID = WB.ids.newTraceID) ∧
      (ServiceB.handleWeather WB r).w =
        (ServiceB.handleWeather WB { r with Header := Header.empty }).w) := by
  obtain ⟨hfs, hvalid⟩ := forwardSpan_eq WA htrace hspan
  obtain ⟨hq, hspans⟩ := handleCEP_forwarded_request WA rA q hsent
  have hget : q.Header.Get traceparentKey = traceparent (ServiceA.forwardSpan WA) := by
    rw [hq]
    simp only [inject, hvalid, if_true, header_get_set]
  have hext : extract none rB.Header = some (ServiceA.forwardSpan WA) := by
    unfold extract
    rw [hrecv, hget, parseTraceparent_traceparent _ hvalid]
  constructor
  · refine ⟨ServiceA.forwardSpan WA, tracerStart WB.ids 0 (some (ServiceA.forwardSpan WA)),
      ?_, hget, hext, ?_, ?_⟩
    · rw [hspans]
      simp [List.lookup]
    · rw [handleWeather_handler_span, hext]
    · simp [tracerStart, hvalid]
  · intro r hnone
    constructor
    · refine ⟨tracerStart WB.ids 0 (extract none r.Header), handleWeather_handler_span WB r, ?_⟩
      simp [extract, hnone, tracerStart]
    · by_cases hm : r.Method = "POST"
      · rw [handleWeather_post_answer WB r hm,
          handleWeather_post_answer WB { r with Header := Header.empty } hm]
      · rw [handleWeather_method_not_allowed WB r hm,
          handleWeather_method_not_allowed WB { r with Header := Header.empty } hm]

/-! ### The theorems at concrete inputs -/

theorem demo_library_error_texts (record : ServiceB.ViaCEPResponse) (apiKey : String) :
    Spec.LibraryErrorTexts
      (Demo.lookup (.doError ⟨"dial tcp: connection refused"⟩) record apiKey) := by
  refine ⟨?_, ?_, ?_, ?_⟩
  · intro url e h
    cases h
  · intro q e h
    simp only [Demo.lookup] at h
    split at h
    · cases h
      decide
    · cases h
  · intro q status e h
    simp only [Demo.lookup] at h
    split at h <;> cases h
  · intro body e h
    cases h

theorem demo_library_error_texts_answering (record : ServiceB.ViaCEPResponse)
    (apiKey : String) :
    Spec.LibraryErrorTexts (Demo.lookup (.response 200 (.ok [])) record apiKey) := by
  refine ⟨?_, ?_, ?_, ?_⟩
  · intro url e h
    cases h
  · intro q e h
    simp only [Demo.lookup] at h
    split at h <;> cases h
  · intro q status e h
    simp only [Demo.lookup] at h
    split at h <;> cases h
  · intro body e h
    cases h

theorem handleWeather_status_by_first_failure_witness :
    (Demo.post (Demo.bytesOf "01001000")).Method = "POST" ∧
    Spec.LibraryErrorTexts
      (Demo.lookup (.doError ⟨"dial tcp: connection refused"⟩) (Demo.record "" false) "k") ∧
    Spec.firstFailure
      (Demo.lookup (.doError ⟨"dial tcp: connection refused"⟩) (Demo.record "" false) "k")
      (Demo.post (Demo.bytesOf "01001000")) = some .directoryOther ∧
    (ServiceB.handleWeather
      (Demo.lookup (.doError ⟨"dial tcp: connection refused"⟩) (Demo.record "" false) "k")
      (Demo.post (Demo.bytesOf "01001000"))).w.statusCode = 500 ∧
    (ServiceB.handleWeather
      (Demo.lookup (.doError ⟨"dial tcp: connection refused"⟩) (Demo.record "" false) "k")
      (Demo.post (Demo.bytesOf "01001000"))).w.body =
        [.json [("message", .str "internal server error")]] ∧
    Spec.LibraryErrorTexts (Demo.lookup (.response 200 (.ok [])) (Demo.record "" true) "k") ∧
    Spec.firstFailure (Demo.lookup (.response 200 (.ok [])) (Demo.record "" true) "k")
      (Demo.post (Demo.bytesOf "01001000")) = some .directoryNotFound ∧
    (ServiceB.handleWeather (Demo.lookup (.response 200 (.ok [])) (Demo.record "" true) "k")
      (Demo.post (Demo.bytesOf "01001000"))).w.statusCode = 404 ∧
    (ServiceB.handleWeather (Demo.lookup (.response 200 (.ok [])) (Demo.record "" true) "k")
      (Demo.post (Demo.bytesOf "01001000"))).w.body =
        [.json [("message", .str "can not find zipcode")]] := by
  have hlib := demo_library_error_texts (Demo.record "" false) "k"
  have hf : Spec.firstFailure
      (Demo.lookup (.doError ⟨"dial tcp: connection refused"⟩) (Demo.record "" false) "k")
      (Demo.post (Demo.bytesOf "01001000")) = some .directoryOther := by decide
  have h := (handleWeather_status_by_first_failure _ _
    (rfl : (Demo.post (Demo.bytesOf "01001000")).Method = "POST") hlib).1
  rw [hf] at h
  have hlib2 := demo_library_error_texts_answering (Demo.record "" true) "k"
  have hf2 : Spec.firstFailure
      (Demo.lookup (.response 200 (.ok [])) (Demo.record "" true) "k")
      (Demo.post (Demo.bytesOf "01001000")) = some .directoryNotFound := by decide
  have h2 := (handleWeather_status_by_first_failure _ _
    (rfl : (Demo.post (Demo.bytesOf "01001000")).Method = "POST") hlib2).1
  rw [hf2] at h2
  exact ⟨rfl, hlib, hf, h.1, h.2, hlib2, hf2, h2.1, h2.2⟩

theorem handleCEP_forward_failure_witness :
    (Demo.post (Demo.bytesOf "01001000")).Method = "POST" ∧
    (Demo.gateway (.doError ⟨"context deadline exceeded"⟩)).decodeCEPRequest
      (Demo.post (Demo.bytesOf "01001000")).Body = .ok { CEP := "01001000" } ∧
    ServiceA.isValidCEP "01001000" = true ∧
    (ServiceA.forwardAttempt (Demo.gateway (.doError ⟨"context deadline exceeded"⟩))
      { CEP := "01001000" }).1 = .error ⟨"context deadline exceeded"⟩ ∧
    (ServiceA.handleCEP (Demo.gateway (.doError ⟨"context deadline exceeded"⟩))
      (Demo.post (Demo.bytesOf "01001000"))).w =
        { header := Header.empty.Set "Content-Type" "application/json", status := some 500,
          body := [.json [("message", .str "internal server error")]] } ∧
    (ServiceA.handleCEP (Demo.gateway (.doError ⟨"context deadline exceeded"⟩))
      (Demo.post (Demo.bytesOf "01001000"))).w.statusCode = 500 :=
  ⟨rfl, rfl, by decide, rfl,
    handleCEP_forward_failure _ _ { CEP := "01001000" } ⟨"context deadline exceeded"⟩ rfl
      rfl (by decide) rfl⟩

theorem handleCEP_invalid_code_witness :
    (Demo.post (Demo.bytesOf "123")).Method = "POST" ∧
    (Demo.gateway (.response 200 (.ok []))).decodeCEPRequest
      (Demo.post (Demo.bytesOf "123")).Body = .ok { CEP := "123" } ∧
    ¬ (("123" : String).length = 8 ∧
      ∀ c ∈ ("123" : String).data, 48 ≤ c.toNat ∧ c.toNat ≤ 57) ∧
    (ServiceA.handleCEP (Demo.gateway (.response 200 (.ok [])))
      (Demo.post (Demo.bytesOf "123"))).w.statusCode = 422 ∧
    (ServiceA.handleCEP (Demo.gateway (.response 200 (.ok [])))
      (Demo.post (Demo.bytesOf "123"))).w.body = [.json [("message", .str "invalid zipcode")]] ∧
    (ServiceA.handleCEP (Demo.gateway (.response 200 (.ok [])))
      (Demo.post (Demo.bytesOf "123"))).fx.calls = [] :=
  have h := handleCEP_invalid_code (Demo.gateway (.response 200 (.ok [])))
    (Demo.post (Demo.bytesOf "123")) { CEP := "123" } rfl rfl (by decide)
  ⟨rfl, rfl, by decide, h.1, h.2.1, h.2.2.1⟩

theorem decode_failure_is_bad_request_witness :
    (Demo.post []).Method = "POST" ∧
    (Demo.gateway (.response 200 (.ok []))).decodeCEPRequest (Demo.post []).Body =
      .error ⟨"EOF"⟩ ∧
    (Demo.lookup (.response 200 (.ok [])) (Demo.record "São Paulo" false)
      "k").decodeCEPRequest (Demo.post []).Body = .error ⟨"EOF"⟩ ∧
    (ServiceA.handleCEP (Demo.gateway (.response 200 (.ok []))) (Demo.post [])).w.statusCode
      = 400 ∧
    (ServiceB.handleWeather
      (Demo.lookup (.response 200 (.ok [])) (Demo.record "São Paulo" false) "k")
      (Demo.post [])).w.statusCode = 400 :=
  have h := decode_failure_is_bad_request (Demo.gateway (.response 200 (.ok [])))
    (Demo.lookup (.response 200 (.ok [])) (Demo.record "São Paulo" false) "k")
    (Demo.post []) (Demo.post []) ⟨"EOF"⟩ ⟨"EOF"⟩ rfl rfl rfl rfl
  ⟨rfl, rfl, rfl, h.1.1, h.2.1⟩

/-- C8 (counterexample): the answer of both services to a `GET` request has status 405, is
produced by the service itself (no outbound call is made), and its body is the plain text line
`Method not allowed`, which is not of the `ErrorEnvelope` shape. -/
theorem method_not_allowed_is_plain_text :
    ((ServiceA.handleCEP (Demo.gateway (.response 200 (.ok []))) Demo.get).w.statusCode = 405 ∧
      (ServiceA.handleCEP (Demo.gateway (.response 200 (.ok []))) Demo.get).fx.calls = [] ∧
      (ServiceA.handleCEP (Demo.gateway (.response 200 (.ok []))) Demo.get).w.body =
        [.line "Method not allowed"] ∧
      Spec.isErrorEnvelope
        (ServiceA.handleCEP (Demo.gateway (.response 200 (.ok []))) Demo.get).w = false) ∧
    ((ServiceB.handleWeather
        (Demo.lookup (.response 200 (.ok [])) (Demo.record "São Paulo" false) "k")
        Demo.get).w.statusCode = 405 ∧
      (ServiceB.handleWeather
        (Demo.lookup (.response 200 (.ok [])) (Demo.record "São Paulo" false) "k")
        Demo.get).fx.calls = [] ∧
      (ServiceB.handleWeather
        (Demo.lookup (.response 200 (.ok [])) (Demo.record "São Paulo" false) "k")
        Demo.get).w.body = [.line "Method not allowed"] ∧
      Spec.isErrorEnvelope
        (ServiceB.handleWeather
          (Demo.lookup (.response 200 (.ok [])) (Demo.record "São Paulo" false) "k")
          Demo.get).w = false) :=
  ⟨⟨by decide, by decide, rfl, rfl⟩, ⟨by decide, by decide, rfl, rfl⟩⟩

theorem error_envelope_on_post_witness :
    (Demo.post (Demo.bytesOf "123")).Method = "POST" ∧ Demo.get.Method ≠ "POST" ∧
    Spec.isErrorEnvelope
      (ServiceB.handleWeather
        (Demo.lookup (.response 200 (.ok [])) (Demo.record "São Paulo" false) "k")
        (Demo.post (Demo.bytesOf "123"))).w = true ∧
    (ServiceA.handleCEP (Demo.gateway (.response 200 (.ok []))) Demo.get).w.body =
      [.line "Method not allowed"] :=
  have h := error_envelope_on_post (Demo.gateway (.response 200 (.ok [])))
    (Demo.lookup (.response 200 (.ok [])) (Demo.record "São Paulo" false) "k")
    (Demo.post (Demo.bytesOf "123")) Demo.get rfl (by decide)
  ⟨rfl, by decide, h.2.1 (by decide), h.2.2.2.1⟩

theorem trace_id_continues_in_lookup_witness :
    (0 < (Demo.gateway (.response 200 (.ok []))).ids.newTraceID ∧
      (Demo.gateway (.response 200 (.ok []))).ids.newTraceID < 2 ^ 128) ∧
    (∀ n, n < 3 → 0 < (Demo.gateway (.response 200 (.ok []))).ids.newSpanID n ∧
      (Demo.gateway (.response 200 (.ok []))).ids.newSpanID n < 2 ^ 64) ∧
    Demo.forwarded (.response 200 (.ok [])) ∈
      (ServiceA.handleCEP (Demo.gateway (.response 200 (.ok [])))
        (Demo.post (Demo.bytesOf "01001000"))).fx.calls ∧
    (Demo.received (.response 200 (.ok []))).Header.Get traceparentKey =
      "00-4bf92f3577b34da6a3ce929d0e0e4736-00f067aa0ba902b9-01" ∧
    ∃ scA scB,
      (ServiceA.handleCEP (Demo.gateway (.response 200 (.ok [])))
        (Demo.post (Demo.bytesOf "01001000"))).fx.spans.lookup "forward-to-service-b" =
          some scA ∧
      (Demo.forwarded (.response 200 (.ok []))).Header.Get traceparentKey = traceparent scA ∧
      extract none (Demo.received (.response 200 (.ok []))).Header = some scA ∧
      (ServiceB.handleWeather
        (Demo.lookup (.response 200 (.ok [])) (Demo.record "São Paulo" false) "k")
        (Demo.received (.response 200 (.ok [])))).fx.spans.head? =
          some ("handle-weather-request", scB) ∧
      scB.traceID = scA.traceID :=
  have htrace : 0 < (Demo.gateway (.response 200 (.ok []))).ids.newTraceID ∧
      (Demo.gateway (.response 200 (.ok []))).ids.newTraceID < 2 ^ 128 := by decide
  have hspan : ∀ n, n < 3 → 0 < (Demo.gateway (.response 200 (.ok []))).ids.newSpanID n ∧
      (Demo.gateway (.response 200 (.ok []))).ids.newSpanID n < 2 ^ 64 := by decide
  have hsent : Demo.forwarded (.response 200 (.ok [])) ∈
      (ServiceA.handleCEP (Demo.gateway (.response 200 (.ok [])))
        (Demo.post (Demo.bytesOf "01001000"))).fx.calls := by decide
  ⟨htrace, hspan, hsent, by decide,
    (trace_id_continues_in_lookup (Demo.gateway (.response 200 (.ok [])))
      (Demo.lookup (.response 200 (.ok [])) (Demo.record "São Paulo" false) "k")
      (Demo.post (Demo.bytesOf "01001000")) (Demo.received (.response 200 (.ok [])))
      (Demo.forwarded (.response 200 (.ok []))) htrace hspan hsent rfl).1⟩

/-! ### Relay of the downstream response -/

/-- C4 (amended): for a `POST` request with a decodable body and a valid code, when the Lookup
service answers the forwarded request with a status `s` that is final (101, or 200 to 999) and a
body `b` (empty when `s` allows no body: 101, 204, 304), `handleCEP` makes that one call and
answers with exactly status `s` and exactly the bytes `b`, without panicking. -/
theorem handleCEP_relays_downstream (W : ServiceA.World) (r : Request)
    (req : ServiceA.CEPRequest) (jsonData : Bytes) (s : Nat) (b : Bytes)
    (hPost : r.Method = "POST") (hdec : W.decodeCEPRequest r.Body = .ok req)
    (hvalid : ServiceA.isValidCEP req.CEP = true)
    (hmarshal : W.marshalCEPRequest req = .ok jsonData)
    (hnew : W.newRequest "POST"
      ((if W.getenv "SERVICE_B_URL" = "" then "http://localhost:8081"
        else W.getenv "SERVICE_B_URL") ++ "/weather") = none)
    (hresp : W.roundTrip
      { Method := "POST"
        URL := (if W.getenv "SERVICE_B_URL" = "" then "http://localhost:8081"
          else W.getenv "SERVICE_B_URL") ++ "/weather"
        Header := inject (some (ServiceA.forwardSpan W))
          (Header.empty.Set "Content-Type" "application/json")
        Body := jsonData } = .response s (.ok b))
    (hs : (s = 101 ∨ 200 ≤ s) ∧ s ≤ 999)
    (hb : bodyAllowedForStatus s = false → b = []) :
    (ServiceA.handleCEP W r).w.panicked = false ∧
    (ServiceA.handleCEP W r).w.status = some s ∧
    (ServiceA.handleCEP W r).w.statusCode = s ∧
    (ServiceA.handleCEP W r).w.body = rawBody b ∧
    (ServiceA.handleCEP W r).fx.calls =
      [{ Method := "POST"
         URL := (if W.getenv "SERVICE_B_URL" = "" then "http://localhost:8081"
           else W.getenv "SERVICE_B_URL") ++ "/weather"
         Header := inject (some (ServiceA.forwardSpan W))
           (Header.empty.Set "Content-Type" "application/json")
         Body := jsonData }] := by
  have hf : ServiceA.forwardAttempt W req =
      (.ok (b, s),
        Effects.call
          { calls := [],
            spans := [("handle-cep-request", ServiceA.handlerSpan W),
              ("validate-cep", ServiceA.validateSpan W),
              ("forward-to-service-b", ServiceA.forwardSpan W)] }
          { Method := "POST", URL := ServiceA.serviceBURL W,
            Header := inject (some (ServiceA.forwardSpan W))
              (Header.empty.Set "Content-Type" "application/json"),
            Body := jsonData }) := by
    unfold ServiceA.forwardAttempt ServiceA.forwardToServiceB
    have hnew2 : W.newRequest "POST" (ServiceA.serviceBURL W) = none := hnew
    have hresp2 : W.roundTrip
        { Method := "POST", URL := ServiceA.serviceBURL W,
          Header := inject (some (ServiceA.forwardSpan W))
            (Header.empty.Set "Content-Type" "application/json"),
          Body := jsonData } = .response s (.ok b) := hresp
    simp only [hmarshal, hnew2, hresp2]
  rw [handleCEP_forward W r req hPost hdec hvalid, hf]
  have h1 : ¬ (s < 100 ∨ 999 < s) := by omega
  have h2 : ¬ (s ≤ 199 ∧ s ≠ 101) := by omega
  have hw : (ResponseWriter.new.SetHeader "Content-Type" "application/json").WriteHeader s =
      { header := Header.empty.Set "Content-Type" "application/json", status := some s,
        body := [] } := by
    simp [ResponseWriter.SetHeader, ResponseWriter.new, ResponseWriter.WriteHeader, h1, h2]
  simp only [hw]
  by_cases hbe : b = []
  · subst hbe
    simp [ResponseWriter.Write, ResponseWriter.WriteHeader, Chunk.isEmpty, rawBody,
      ResponseWriter.statusCode, Effects.call, ServiceA.serviceBURL]
  · have hallow : bodyAllowedForStatus s = true := by
      cases h : bodyAllowedForStatus s with
      | true => rfl
      | false => exact absurd (hb h) hbe
    have hne : b.isEmpty = false := by
      cases b with
      | nil => exact absurd rfl hbe
      | cons x xs => rfl
    simp [ResponseWriter.Write, ResponseWriter.WriteHeader, Chunk.isEmpty, rawBody,
      ResponseWriter.statusCode, Effects.call, ServiceA.serviceBURL, hallow, hne, hbe]

/-- C4 (counterexample): the Lookup service answers the forwarded request with the status line
`099` and a body; `forwardToServiceB` returns that status and body without error, and
`handleCEP` panics in `WriteHeader(99)`: no status and no body are written. -/
theorem handleCEP_status_99_panics :
    (Demo.post (Demo.bytesOf "01001000")).Method = "POST" ∧
    ServiceA.isValidCEP "01001000" = true ∧
    (ServiceA.forwardAttempt (Demo.gateway (.response 99 (.ok (Demo.bytesOf "teapot"))))
      { CEP := "01001000" }).1 = .ok (Demo.bytesOf "teapot", 99) ∧
    (ServiceA.handleCEP (Demo.gateway (.response 99 (.ok (Demo.bytesOf "teapot"))))
      (Demo.post (Demo.bytesOf "01001000"))).w.panicked = true ∧
    (ServiceA.handleCEP (Demo.gateway (.response 99 (.ok (Demo.bytesOf "teapot"))))
      (Demo.post (Demo.bytesOf "01001000"))).w.status = none ∧
    (ServiceA.handleCEP (Demo.gateway (.response 99 (.ok (Demo.bytesOf "teapot"))))
      (Demo.post (Demo.bytesOf "01001000"))).w.body = [] :=
  ⟨rfl, by decide, rfl, by decide, by decide, rfl⟩

theorem handleCEP_relays_downstream_witness :
    (Demo.post (Demo.bytesOf "99999999")).Method = "POST" ∧
    (Demo.gateway (.response 404 (.ok (Demo.bytesOf "can not find zipcode")))).decodeCEPRequest
      (Demo.post (Demo.bytesOf "99999999")).Body = .ok { CEP := "99999999" } ∧
    ServiceA.isValidCEP "99999999" = true ∧
    ((404 = 101 ∨ 200 ≤ 404) ∧ 404 ≤ 999) ∧
    (bodyAllowedForStatus 404 = false → Demo.bytesOf "can not find zipcode" = []) ∧
    (ServiceA.handleCEP
      (Demo.gateway (.response 404 (.ok (Demo.bytesOf "can not find zipcode"))))
      (Demo.post (Demo.bytesOf "99999999"))).w.statusCode = 404 ∧
    (ServiceA.handleCEP
      (Demo.gateway (.response 404 (.ok (Demo.bytesOf "can not find zipcode"))))
      (Demo.post (Demo.bytesOf "99999999"))).w.body =
        [.raw (Demo.bytesOf "can not find zipcode")] ∧
    (ServiceA.handleCEP
      (Demo.gateway (.response 404 (.ok (Demo.bytesOf "can not find zipcode"))))
      (Demo.post (Demo.bytesOf "99999999"))).fx.calls.map (fun q => (q.Method, q.URL, q.Body)) =
        [("POST", "http://localhost:8081/weather", Demo.bytesOf "99999999")] :=
  have h := handleCEP_relays_downstream
    (Demo.gateway (.response 404 (.ok (Demo.bytesOf "can not find zipcode"))))
    (Demo.post (Demo.bytesOf "99999999")) { CEP := "99999999" } (Demo.bytesOf "99999999") 404
    (Demo.bytesOf "can not find zipcode") rfl rfl (by decide) rfl rfl rfl (by decide) (by decide)
  ⟨rfl, rfl, by decide, by decide, by decide, h.2.2.1, h.2.2.2.1, by rw [h.2.2.2.2]; rfl⟩

/-! ### Bodies that are not well-formed and still decode -/

/-- C7 (counterexample): the body `{"cep":"01001000"}x` is not well-formed JSON, yet `Decode`
reads the object and stops: the Gateway forwards the request and relays the answer, and the
Lookup service goes on to the directory call; neither answers 400. The bodies `null` and `{}`
are not an object with a string `cep` either; they decode to the empty code and are answered
422. -/
theorem malformed_bodies_that_decode :
    (Spec.wellFormedJSON Demo.trailingBody = false ∧
      Json.decodeCEP Demo.trailingBody = .ok "01001000" ∧
      (ServiceA.handleCEP (Demo.jsonGateway (.response 200 (.ok (Demo.bytesOf "ok"))))
        (Demo.post Demo.trailingBody)).w.statusCode = 200 ∧
      (ServiceA.handleCEP (Demo.jsonGateway (.response 200 (.ok (Demo.bytesOf "ok"))))
        (Demo.post Demo.trailingBody)).fx.calls.map (fun q => (q.Method, q.URL, q.Body)) =
          [("POST", "http://localhost:8081/weather",
            Demo.bytesOf "\x7b\"cep\":\"01001000\"\x7d")] ∧
      (ServiceB.handleWeather (Demo.jsonLookup (Demo.record "" true) "k")
        (Demo.post Demo.trailingBody)).w.statusCode = 404 ∧
      (ServiceB.handleWeather (Demo.jsonLookup (Demo.record "" true) "k")
        (Demo.post Demo.trailingBody)).fx.calls =
          [ServiceB.getRequest "https://viacep.com.br/ws/01001000/json/"]) ∧
    (Spec.isCEPDocument Demo.nullBody = false ∧
      Json.decodeCEP Demo.nullBody = .ok "" ∧
      (ServiceA.handleCEP (Demo.jsonGateway (.response 200 (.ok (Demo.bytesOf "ok"))))
        (Demo.post Demo.nullBody)).w.statusCode = 422 ∧
      (ServiceB.handleWeather (Demo.jsonLookup (Demo.record "" true) "k")
        (Demo.post Demo.nullBody)).w.statusCode = 422) ∧
    (Spec.isCEPDocument Demo.emptyObjectBody = false ∧
      Json.decodeCEP Demo.emptyObjectBody = .ok "" ∧
      (ServiceA.handleCEP (Demo.jsonGateway (.response 200 (.ok (Demo.bytesOf "ok"))))
        (Demo.post Demo.emptyObjectBody)).w.statusCode = 422 ∧
      (ServiceB.handleWeather (Demo.jsonLookup (Demo.record "" true) "k")
        (Demo.post Demo.emptyObjectBody)).w.statusCode = 422) :=
  ⟨⟨by decide, rfl, by decide, by decide, by decide, by decide⟩,
    ⟨by decide, rfl, by decide, by decide⟩, ⟨by decide, rfl, by decide, by decide⟩⟩

/-! ### The resolved city and the weather step -/

/-- For a `POST` request with a decodable body and a valid code, each failure of the forwarding
call gives the answer 500 with the message `internal server error`: `json.Marshal` fails, the
request cannot be built, `client.Do` fails, or reading the body of the response fails. -/
theorem handleCEP_forwarding_failures (W : ServiceA.World) (r : Request)
    (req : ServiceA.CEPRequest)
    (hPost : r.Method = "POST") (hdec : W.decodeCEPRequest r.Body = .ok req)
    (hvalid : ServiceA.isValidCEP req.CEP = true)
    (hfail : (∃ e, W.marshalCEPRequest req = .error e) ∨
      ∃ jsonData, W.marshalCEPRequest req = .ok jsonData ∧
        ((∃ e, W.newRequest "POST"
            ((if W.getenv "SERVICE_B_URL" = "" then "http://localhost:8081"
              else W.getenv "SERVICE_B_URL") ++ "/weather") = some e) ∨
          (W.newRequest "POST"
            ((if W.getenv "SERVICE_B_URL" = "" then "http://localhost:8081"
              else W.getenv "SERVICE_B_URL") ++ "/weather") = none ∧
            ((∃ e, W.roundTrip
                { Method := "POST"
                  URL := (if W.getenv "SERVICE_B_URL" = "" then "http://localhost:8081"
                    else W.getenv "SERVICE_B_URL") ++ "/weather"
                  Header := inject (some (ServiceA.forwardSpan W))
                    (Header.empty.Set "Content-Type" "application/json")
                  Body := jsonData } = .doError e) ∨
              ∃ s e, W.roundTrip
                { Method := "POST"
                  URL := (if W.getenv "SERVICE_B_URL" = "" then "http://localhost:8081"
                    else W.getenv "SERVICE_B_URL") ++ "/weather"
                  Header := inject (some (ServiceA.forwardSpan W))
                    (Header.empty.Set "Content-Type" "application/json")
                  Body := jsonData } = .response s (.error e))))) :
    (ServiceA.handleCEP W r).w.statusCode = 500 ∧
    (ServiceA.handleCEP W r).w.body = [.json [("message", .str "internal server error")]] := by
  have e500 := gateway_respondWithError_new 500 "internal server error" (by decide) (by decide)
    (by decide) (by decide)
  rw [handleCEP_forward W r req hPost hdec hvalid]
  unfold ServiceA.forwardAttempt ServiceA.forwardToServiceB
  rcases hfail with ⟨e, hm⟩ | ⟨jsonData, hm, hrest⟩
  · simp only [hm, e500]
    exact ⟨rfl, trivial⟩
  · rcases hrest with ⟨e, hn⟩ | ⟨hn, hrt⟩
    · have hn2 : W.newRequest "POST" (ServiceA.serviceBURL W) = some e := hn
      simp only [hm, hn2, e500]
      exact ⟨rfl, trivial⟩
    · have hn2 : W.newRequest "POST" (ServiceA.serviceBURL W) = none := hn
      rcases hrt with ⟨e, hr⟩ | ⟨s, e, hr⟩
      · have hr2 : W.roundTrip
            { Method := "POST", URL := ServiceA.serviceBURL W,
              Header := inject (some (ServiceA.forwardSpan W))
                (Header.empty.Set "Content-Type" "application/json"),
              Body := jsonData } = .doError e := hr
        simp only [hm, hn2, hr2, e500]
        exact ⟨rfl, trivial⟩
      · have hr2 : W.roundTrip
            { Method := "POST", URL := ServiceA.serviceBURL W,
              Header := inject (some (ServiceA.forwardSpan W))
                (Header.empty.Set "Content-Type" "application/json"),
              Body := jsonData } = .response s (.error e) := hr
        simp only [hm, hn2, hr2, e500]
        exact ⟨rfl, trivial⟩

theorem handleCEP_forwarding_failures_witness :
    (Demo.post (Demo.bytesOf "01001000")).Method = "POST" ∧
    ServiceA.isValidCEP "01001000" = true ∧
    (Demo.gateway (.response 200 (.error ⟨"unexpected EOF"⟩))).roundTrip
      (Demo.forwarded (.response 200 (.error ⟨"unexpected EOF"⟩))) =
        .response 200 (.error ⟨"unexpected EOF"⟩) ∧
    (ServiceA.handleCEP (Demo.gateway (.response 200 (.error ⟨"unexpected EOF"⟩)))
      (Demo.post (Demo.bytesOf "01001000"))).w.statusCode = 500 ∧
    (ServiceA.handleCEP (Demo.gateway (.response 200 (.error ⟨"unexpected EOF"⟩)))
      (Demo.post (Demo.bytesOf "01001000"))).w.body =
        [.json [("message", .str "internal server error")]] :=
  have h := handleCEP_forwarding_failures
    (Demo.gateway (.response 200 (.error ⟨"unexpected EOF"⟩)))
    (Demo.post (Demo.bytesOf "01001000")) { CEP := "01001000" } rfl rfl (by decide)
    (Or.inr ⟨Demo.bytesOf "01001000", rfl, Or.inr ⟨rfl, Or.inr ⟨200, ⟨"unexpected EOF"⟩, rfl⟩⟩⟩)
  ⟨rfl, by decide, rfl, h.1, h.2⟩

end TemperatureServices
